import Mathlib

/-!
Verification of the ciclops test-summary aggregator
(`summarize_test_results.py`) against its natural-language specification.

The shallow embedding models:
  * a raw JSON artifact as an association list of string fields (`Doc`);
  * a validated, normalized artifact as a `Record` (the 15 required fields
    plus the derived `pg_version`);
  * Python dictionaries as insertion-ordered association lists (`StrMap`),
    with update helpers (`bump`, `mark`, `setVal`, `setIfAbsent`) that
    reproduce the source's "init-if-absent, then write" idiom, including
    Python's append-at-end semantics for new keys;
  * timestamps as seconds counted from year 1 (`fromisoformat`), mirroring
    the source's `datetime.fromisoformat` on the whole-second prefix of the
    artifact timestamps.  `datetime.fromisoformat` raises `ValueError` on a
    malformed prefix (a fatal, uncaught fault per the program's error
    model); the embedding returns `none` and skips duration tracking, the
    policy the spec itself prescribes for unparsable timestamps.  No claim
    below depends on behaviour at a malformed timestamp.

All aggregation functions (`count_bucketed_by_test`, `count_bucketed_by_code`,
`count_bucketed_by_special_failures`, `count_bucketized_stats`,
`track_time_taken`, `compute_test_summary`) keep the source's names and are
translated line by line from the Python.
-/

namespace Ciclops

/-- Dictionary with string keys, in insertion order, mirroring a Python dict
(keys are unique by construction of the update helpers below). -/
abbrev StrMap (α : Type) := List (String × α)

/-- Lookup of a key in a `StrMap` (Python `m[k]` / `k in m`). -/
def lookup? {α : Type} : StrMap α → String → Option α
  | [], _ => none
  | (k, v) :: rest, key => if k = key then some v else lookup? rest key

/-- Lookup with a default value. -/
def getD {α : Type} (m : StrMap α) (k : String) (d : α) : α :=
  (lookup? m k).getD d

/-- Pythonic counter update: `if k not in m: m[k] = 0` followed by
`m[k] = 1 + m[k]`.  A new key is appended at the end, an existing key is
updated in place. -/
def bump : StrMap Nat → String → StrMap Nat
  | [], k => [(k, 1)]
  | (k', v) :: rest, k =>
    if k' = k then (k', v + 1) :: rest else (k', v) :: bump rest k

/-- Insertion-ordered set of strings: `s[v] = True` on a Python dict used as
a set. -/
def addKey (l : List String) (v : String) : List String :=
  if v ∈ l then l else l ++ [v]

/-- Pythonic breakdown-set update: `if k not in m: m[k] = {}` followed by
`m[k][v] = True`. -/
def mark : StrMap (List String) → String → String → StrMap (List String)
  | [], k, v => [(k, [v])]
  | (k', s) :: rest, k, v =>
    if k' = k then (k', addKey s v) :: rest else (k', s) :: mark rest k v

/-- Pythonic assignment `m[k] = v`: update in place, or append a new key. -/
def setVal {α : Type} : StrMap α → String → α → StrMap α
  | [], k, v => [(k, v)]
  | (k', w) :: rest, k, v =>
    if k' = k then (k', v) :: rest else (k', w) :: setVal rest k v

/-- Pythonic guarded assignment `if k not in m: m[k] = v` (first occurrence
wins). -/
def setIfAbsent (m : StrMap String) (k v : String) : StrMap String :=
  if (lookup? m k).isSome then m else m ++ [(k, v)]

/-- Raw JSON artifact: an association list from field names to (stringified)
field values.  Only field presence and string equality of values matter to
the aggregator, so string values lose no generality. -/
abbrev Doc := List (String × String)

/-- The 15 fields `is_test_artifact` requires (source list `should_have`). -/
def should_have : List String :=
  ["name", "state", "start_time", "end_time", "error", "error_file",
   "error_line", "platform", "postgres_kind", "matrix_id",
   "postgres_version", "k8s_version", "workflow_id", "repo", "branch"]

/-- Validator: true iff all 15 required fields are present
(`is_test_artifact` in the source; values are not checked). -/
def is_test_artifact (d : Doc) : Bool :=
  should_have.all fun field => (lookup? d field).isSome

/-- Validated, normalized test artifact.  `pg_version` is the derived field
added by `combine_postgres_data`.  On a validated artifact every field
lookup succeeds, so the fields are plain strings. -/
structure Record where
  name : String
  state : String
  start_time : String
  end_time : String
  error : String
  error_file : String
  error_line : String
  platform : String
  postgres_kind : String
  matrix_id : String
  postgres_version : String
  k8s_version : String
  workflow_id : String
  repo : String
  branch : String
  pg_version : String
  deriving DecidableEq, Repr

/-- Field extraction from a raw artifact; the default is never reached on a
validated artifact. -/
def getField (d : Doc) (f : String) : String :=
  (lookup? d f).getD ""

/-- Extraction of the `Record` from a validated artifact, including the
normalization step `combine_postgres_data` (which sets
`pg_version = f"{pgkind}-{pgversion}"`). -/
def toRecord (d : Doc) : Record where
  name := getField d "name"
  state := getField d "state"
  start_time := getField d "start_time"
  end_time := getField d "end_time"
  error := getField d "error"
  error_file := getField d "error_file"
  error_line := getField d "error_line"
  platform := getField d "platform"
  postgres_kind := getField d "postgres_kind"
  matrix_id := getField d "matrix_id"
  postgres_version := getField d "postgres_version"
  k8s_version := getField d "k8s_version"
  workflow_id := getField d "workflow_id"
  repo := getField d "repo"
  branch := getField d "branch"
  pg_version := getField d "postgres_kind" ++ "-" ++ getField d "postgres_version"

/-- Classifier: the test failed (state is none of the passing states). -/
def is_failed (t : Record) : Bool :=
  t.state != "passed" && t.state != "skipped" && t.state != "ignoreFailed"

/-- Classifier: the test failed for an external reason (failed, but the
state is not the plain `"failed"`, e.g. `"interrupted"`). -/
def is_external_failure (t : Record) : Bool :=
  is_failed t && t.state != "failed"

/-- Classifier: the error text matches the fixed known-error set.  The
source additionally tests `"error" in e2e_test`, which on a validated
artifact (all 15 fields present) is identically true. -/
def is_special_error (t : Record) : Bool :=
  t.error == "operator was restarted" || t.error == "operator was renamed"

/-- Classifier: the ginkgo report could not be read (the sentinel test name).
As with `is_special_error`, the source's `"error" in e2e_test` presence test
is identically true on a validated artifact. -/
def is_ginkgo_report_failure (t : Record) : Bool :=
  t.name == "Open Ginkgo report"

/-- Classifier: failed and not any special kind of failure. -/
def is_normal_failure (t : Record) : Bool :=
  is_failed t && !is_special_error t && !is_external_failure t
    && !is_ginkgo_report_failure t

/-- Split of a character list at every occurrence of the separator
character (the list-level semantics of Python's `str.split` with a
one-character separator, also the semantics of `String.splitOn` with a
one-character pattern, in a structurally recursive form). -/
def splitChars (sep : Char) : List Char → List (List Char)
  | [] => [[]]
  | c :: rest =>
    if c = sep then [] :: splitChars sep rest
    else
      match splitChars sep rest with
      | [] => [[c]]
      | hd :: tl => (c :: hd) :: tl

/-- String form of `splitChars`: Python `s.split(sep)` for a one-character
separator, e.g. the `.split(".")` calls of `track_time_taken`. -/
def splitOnChar (sep : Char) (s : String) : List String :=
  (splitChars sep s.data).map fun cs => String.mk cs

/-- Parse of a non-empty all-digit string as a decimal number (the behavior
of Python `int(...)`, and of `String.toNat?`, on the date and time
fragments). -/
def parseNat? (s : String) : Option Nat :=
  if s.data ≠ [] ∧ s.data.all (fun c => c.isDigit) then
    some (s.data.foldl (fun n c => n * 10 + (c.toNat - '0'.toNat)) 0)
  else none

/-- Gregorian leap-year test. -/
def is_leap (y : Nat) : Bool :=
  y % 4 == 0 && (y % 100 != 0 || y % 400 == 0)

/-- Days in the months strictly before month `m` of a year. -/
def days_in_months_before (leap : Bool) (m : Nat) : Nat :=
  let base := [0, 31, 59, 90, 120, 151, 181, 212, 243, 273, 304, 334]
  let v := base.getD (m - 1) 0
  if leap && m > 2 then v + 1 else v

/-- Days in the years strictly before year `y` (year 1 is day 0). -/
def days_before_year (y : Nat) : Nat :=
  (y - 1) * 365 + (y - 1) / 4 - (y - 1) / 100 + (y - 1) / 400

/-- Seconds elapsed from midnight of 0001-01-01 to the given civil time. -/
def to_epoch_seconds (y mo d h mi s : Nat) : Int :=
  ((days_before_year y + days_in_months_before (is_leap y) mo + (d - 1))
      * 86400 + h * 3600 + mi * 60 + s : Nat)

/-- Parse of a second-resolution ISO-8601 timestamp `YYYY-MM-DDTHH:MM:SS`
into seconds, mirroring Python's `datetime.fromisoformat` on the inputs the
program feeds it (the pre-fractional prefix of an artifact timestamp).
Python raises `ValueError` on a malformed input, a fatal fault for the whole
run; the embedding answers `none` there and the caller skips the record's
duration tracking, per the spec's stated policy for unparsable timestamps.
No claim depends on an input where the two disagree. -/
def fromisoformat (str : String) : Option Int :=
  match splitOnChar 'T' str with
  | [date, time] =>
    match splitOnChar '-' date, splitOnChar ':' time with
    | [ys, mos, ds], [hs, mis, ss] =>
      match parseNat? ys, parseNat? mos, parseNat? ds, parseNat? hs,
          parseNat? mis, parseNat? ss with
      | some y, some mo, some d, some h, some mi, some s =>
        some (to_epoch_seconds y mo d h mi s)
      | _, _, _, _, _, _ => none
    | _, _ => none
  | _ => none

/-- Per-test duration tracking state (`test_times` in the source):
running max and min duration per (possibly tagged) test name, and the
matrix branch achieving the current max.  Durations in seconds. -/
structure TestTimes where
  max : StrMap Int
  min : StrMap Int
  slowest_branch : StrMap String
  deriving DecidableEq, Repr

/-- Per-suite duration tracking state (`suite_times` in the source):
earliest start and latest end per platform per matrix branch. -/
structure SuiteTimes where
  start_time : StrMap (StrMap Int)
  end_time : StrMap (StrMap Int)
  deriving DecidableEq, Repr

/-- Tagged display name used as the duration-bucket key: external failures
and special errors are prefixed with their failure kind in brackets. -/
def tagged_name (t : Record) : String :=
  if is_external_failure t then "[" ++ t.state ++ "] " ++ t.name
  else if is_special_error t then "[" ++ t.error ++ "] " ++ t.name
  else t.name

/-- Timestamp admission shared by both duration trackers: `none` when either
timestamp is the sentinel zero-value, either does not split on "." into
exactly two fragments, or a whole-second prefix does not parse (in the
source the last case raises, see `fromisoformat`).  Mirrors the guard
sequence at the top of `track_time_taken`. -/
def timedInfo (t : Record) : Option (Int × Int) :=
  if t.start_time = "0001-01-01T00:00:00Z" ∨ t.end_time = "0001-01-01T00:00:00Z" then
    none
  else
    let start_frags := splitOnChar '.' t.start_time
    if start_frags.length ≠ 2 then none
    else
      let end_frags := splitOnChar '.' t.end_time
      if end_frags.length ≠ 2 then none
      else
        match fromisoformat (start_frags.headD ""), fromisoformat (end_frags.headD "") with
        | some s, some e => some (s, e)
        | _, _ => none

/-- Duration tracking (`track_time_taken`): updates per-test min/max/slowest
and per-(platform, matrix) earliest-start/latest-end, or leaves both states
unchanged when `timedInfo` rejects the timestamps.  The update sequence is
the source's, with the source's single `if duration > max[name]` block split
into two conditionals with the same (pre-update) condition. -/
def track_time_taken (t : Record) (tt : TestTimes) (st : SuiteTimes) :
    TestTimes × SuiteTimes :=
  let name := tagged_name t
  match timedInfo t with
  | none => (tt, st)
  | some (start_time, end_time) =>
    let duration : Int := end_time - start_time
    let matrix_id := t.matrix_id
    let maxA := if (lookup? tt.max name).isNone then setVal tt.max name duration else tt.max
    let minA := if (lookup? tt.min name).isNone then setVal tt.min name duration else tt.min
    let slowA :=
      if (lookup? tt.slowest_branch name).isNone then
        setVal tt.slowest_branch name matrix_id
      else tt.slowest_branch
    let maxB := if duration > getD maxA name 0 then setVal maxA name duration else maxA
    let slowB := if duration > getD maxA name 0 then setVal slowA name matrix_id else slowA
    let minB := if duration < getD minA name 0 then setVal minA name duration else minA
    let platform := t.platform
    let startA :=
      if (lookup? st.start_time platform).isNone then setVal st.start_time platform []
      else st.start_time
    let startB :=
      if (lookup? (getD startA platform []) matrix_id).isNone then
        setVal startA platform (setVal (getD startA platform []) matrix_id start_time)
      else startA
    let endA :=
      if (lookup? st.end_time platform).isNone then setVal st.end_time platform []
      else st.end_time
    let endB :=
      if (lookup? (getD endA platform []) matrix_id).isNone then
        setVal endA platform (setVal (getD endA platform []) matrix_id end_time)
      else endA
    let startC :=
      if start_time < getD (getD startB platform []) matrix_id 0 then
        setVal startB platform (setVal (getD startB platform []) matrix_id start_time)
      else startB
    let endC :=
      if getD (getD endB platform []) matrix_id 0 < end_time then
        setVal endB platform (setVal (getD endB platform []) matrix_id end_time)
      else endB
    (⟨maxB, minB, slowB⟩, ⟨startC, endC⟩)

/-- By-test bucket state (`by_test` in the source). -/
structure ByTest where
  total : StrMap Nat
  failed : StrMap Nat
  k8s_versions_failed : StrMap (List String)
  pg_versions_failed : StrMap (List String)
  platforms_failed : StrMap (List String)
  deriving DecidableEq, Repr

/-- By-failing-code bucket state (`by_failing_code` in the source). -/
structure ByCode where
  total : StrMap Nat
  tests : StrMap (List String)
  errors : StrMap String
  deriving DecidableEq, Repr

/-- By-special-failure bucket state (`by_special_failures` in the source). -/
structure BySpecial where
  total : StrMap Nat
  tests_failed : StrMap (List String)
  k8s_versions_failed : StrMap (List String)
  pg_versions_failed : StrMap (List String)
  platforms_failed : StrMap (List String)
  deriving DecidableEq, Repr

/-- Plain total/failed bucket pair used by the four dimension buckets. -/
structure Buckets where
  total : StrMap Nat
  failed : StrMap Nat
  deriving DecidableEq, Repr

/-- By-test bucketing (`count_bucketed_by_test`): always counts the run;
on a failure that is not a ginkgo report failure, counts the failure and
records the failing k8s version, pg version and platform. -/
def count_bucketed_by_test (t : Record) (by_test : ByTest) : ByTest :=
  let name := t.name
  if is_failed t && !is_ginkgo_report_failure t then
    { total := bump by_test.total name
      failed := bump by_test.failed name
      k8s_versions_failed := mark by_test.k8s_versions_failed name t.k8s_version
      pg_versions_failed := mark by_test.pg_versions_failed name t.pg_version
      platforms_failed := mark by_test.platforms_failed name t.platform }
  else
    { by_test with total := bump by_test.total name }

/-- By-failing-code bucketing (`count_bucketed_by_code`): skips empty
errors, `ignoreFailed` state and non-normal failures; otherwise counts the
key `error_file ++ ":" ++ error_line`, records the test name, and stores the
error text with first-occurrence-wins semantics. -/
def count_bucketed_by_code (t : Record) (by_failing_code : ByCode) : ByCode :=
  if t.error == "" || t.state == "ignoreFailed" then by_failing_code
  else if !is_normal_failure t then by_failing_code
  else
    let err_desc := t.error_file ++ ":" ++ t.error_line
    { total := bump by_failing_code.total err_desc
      tests := mark by_failing_code.tests err_desc t.name
      errors := setIfAbsent by_failing_code.errors err_desc t.error }

/-- Bucket label under which a special failure is filed: the source first
sets it to `state` for an external failure, then overwrites it with `error`
for a special error or ginkgo report failure (two consecutive `if`
statements, not `elif`). -/
def special_failure_label (t : Record) : String :=
  let failure := ""
  let failure := if is_external_failure t then t.state else failure
  if is_special_error t || is_ginkgo_report_failure t then t.error else failure

/-- By-special-failure bucketing (`count_bucketed_by_special_failures`):
skips non-failures and normal failures; otherwise counts under
`special_failure_label` and records name, k8s version, pg version and
platform in the label's breakdown sets. -/
def count_bucketed_by_special_failures (t : Record) (by_special : BySpecial) :
    BySpecial :=
  if !is_failed t || is_normal_failure t then by_special
  else
    let failure := special_failure_label t
    { total := bump by_special.total failure
      tests_failed := mark by_special.tests_failed failure t.name
      k8s_versions_failed := mark by_special.k8s_versions_failed failure t.k8s_version
      pg_versions_failed := mark by_special.pg_versions_failed failure t.pg_version
      platforms_failed := mark by_special.platforms_failed failure t.platform }

/-- Dimension bucketing (`count_bucketized_stats`): counts the run under the
selected field's value, and the failure too when the record failed (any
failure kind). -/
def count_bucketized_stats (t : Record) (buckets : Buckets)
    (field_id : Record → String) : Buckets :=
  let bucket_id := field_id t
  { total := bump buckets.total bucket_id
    failed := if is_failed t then bump buckets.failed bucket_id else buckets.failed }

/-- Aggregation state (`compute_test_summary`'s return dictionary). -/
structure Summary where
  total_run : Nat
  total_failed : Nat
  total_special_fails : Nat
  by_test : ByTest
  by_code : ByCode
  by_special_failures : BySpecial
  by_matrix : Buckets
  by_k8s : Buckets
  by_postgres : Buckets
  by_platform : Buckets
  test_durations : TestTimes
  suite_durations : SuiteTimes
  deriving DecidableEq, Repr

/-- Empty aggregation state, as initialized at the top of
`compute_test_summary`. -/
def init_summary : Summary where
  total_run := 0
  total_failed := 0
  total_special_fails := 0
  by_test := ⟨[], [], [], [], []⟩
  by_code := ⟨[], [], []⟩
  by_special_failures := ⟨[], [], [], [], []⟩
  by_matrix := ⟨[], []⟩
  by_k8s := ⟨[], []⟩
  by_postgres := ⟨[], []⟩
  by_platform := ⟨[], []⟩
  test_durations := ⟨[], [], []⟩
  suite_durations := ⟨[], []⟩

/-- Body of the per-file loop of `compute_test_summary`: a non-artifact is
skipped with no effect; a valid artifact is normalized and folded into every
counter, bucket and duration tracker. -/
def fold_artifact (acc : Summary) (doc : Doc) : Summary :=
  if is_test_artifact doc then
    let t := toRecord doc
    let times := track_time_taken t acc.test_durations acc.suite_durations
    { total_run := acc.total_run + 1
      total_failed := if is_failed t then acc.total_failed + 1 else acc.total_failed
      total_special_fails :=
        if !is_normal_failure t then acc.total_special_fails + 1
        else acc.total_special_fails
      by_test := count_bucketed_by_test t acc.by_test
      by_code := count_bucketed_by_code t acc.by_code
      by_special_failures := count_bucketed_by_special_failures t acc.by_special_failures
      by_matrix := count_bucketized_stats t acc.by_matrix (fun r => r.matrix_id)
      by_k8s := count_bucketized_stats t acc.by_k8s (fun r => r.k8s_version)
      by_postgres := count_bucketized_stats t acc.by_postgres (fun r => r.pg_version)
      by_platform := count_bucketized_stats t acc.by_platform (fun r => r.platform)
      test_durations := times.1
      suite_durations := times.2 }
  else acc

/-- Aggregator (`compute_test_summary`).  The directory scan is modelled by
the list of parsed JSON documents of the `.json` files, in directory order;
JSON parse faults are fatal before this point and non-artifacts are skipped
inside the fold. -/
def compute_test_summary (docs : List Doc) : Summary :=
  docs.foldl fold_artifact init_summary

/-- Overview reduction (`compute_bucketized_summary`): number of distinct
failed bucket keys and number of distinct total bucket keys. -/
def compute_bucketized_summary (parameter_buckets : Buckets) : Nat × Nat :=
  (parameter_buckets.failed.length, parameter_buckets.total.length)

/-- Alert-line selection of `format_alerts` for one dimension: the loop
walks the dimension's `failed` map and keeps the buckets whose failure
count equals the run count and exceeds 1. -/
def alert_lines_for (metric : String) (b : Buckets) : List (String × String) :=
  ((b.failed.map Prod.fst).filter fun bucket =>
      getD b.failed bucket 0 == getD b.total bucket 0 && getD b.failed bucket 0 > 1
    ).map fun bucket => (metric, bucket)

/-- Alert lines emitted by `format_alerts` as (dimension, bucket) pairs.
When every run failed the function emits only the fixed "All test
combinations failed" banner and returns before the per-bucket loop, so no
per-bucket line is emitted. -/
def format_alerts_lines (summary : Summary) : List (String × String) :=
  if summary.total_run == summary.total_failed then []
  else
    alert_lines_for "by_test" ⟨summary.by_test.total, summary.by_test.failed⟩
      ++ alert_lines_for "by_k8s" summary.by_k8s
      ++ alert_lines_for "by_postgres" summary.by_postgres
      ++ alert_lines_for "by_platform" summary.by_platform

/-! Concrete artifacts used by counterexamples and witnesses. -/

/-- Validated record of a passed test whose error text is a known error. -/
def passed_restart_record : Record where
  name := "my test"
  state := "passed"
  start_time := "0001-01-01T00:00:00Z"
  end_time := "0001-01-01T00:00:00Z"
  error := "operator was restarted"
  error_file := ""
  error_line := ""
  platform := "local"
  postgres_kind := "PostgreSQL"
  matrix_id := "id1"
  postgres_version := "11.1"
  k8s_version := "1.22"
  workflow_id := "w"
  repo := "r"
  branch := "b"
  pg_version := "PostgreSQL-11.1"

/-- Validated record that is simultaneously an external failure (state
`"interrupted"`) and a special error (error text in the known-error set). -/
def interrupted_restart_record : Record :=
  { passed_restart_record with state := "interrupted" }

/-- Doc form of a passed test on the shared dimension values. -/
def passed_doc : Doc :=
  [("name", "t pass"), ("state", "passed"),
   ("start_time", "2021-11-29T18:28:37.000Z"),
   ("end_time", "2021-11-29T18:29:37.000Z"),
   ("error", ""), ("error_file", ""), ("error_line", ""),
   ("platform", "local"), ("postgres_kind", "PostgreSQL"),
   ("matrix_id", "id1"), ("postgres_version", "11.1"),
   ("k8s_version", "1.22"), ("workflow_id", "w"), ("repo", "r"),
   ("branch", "b")]

/-- Doc form of a normal failure on the shared dimension values. -/
def failed_doc : Doc :=
  [("name", "t fail"), ("state", "failed"),
   ("start_time", "2021-11-29T18:28:37.000Z"),
   ("end_time", "2021-11-29T18:31:07.000Z"),
   ("error", "assert"), ("error_file", "initdb_test.go"),
   ("error_line", "80"),
   ("platform", "local"), ("postgres_kind", "PostgreSQL"),
   ("matrix_id", "id1"), ("postgres_version", "11.1"),
   ("k8s_version", "1.22"), ("workflow_id", "w"), ("repo", "r"),
   ("branch", "b")]

/-- Passed test on matrix branch id1; duration 60 seconds. -/
def tie_doc_one : Doc :=
  [("name", "t tie"), ("state", "passed"),
   ("start_time", "2021-11-29T18:00:00.000Z"),
   ("end_time", "2021-11-29T18:01:00.000Z"),
   ("error", ""), ("error_file", ""), ("error_line", ""),
   ("platform", "local"), ("postgres_kind", "PostgreSQL"),
   ("matrix_id", "id1"), ("postgres_version", "11.1"),
   ("k8s_version", "1.22"), ("workflow_id", "w"), ("repo", "r"),
   ("branch", "b")]

/-- Same test with the same 60-second duration on matrix branch id2. -/
def tie_doc_two : Doc :=
  [("name", "t tie"), ("state", "passed"),
   ("start_time", "2021-11-29T19:00:00.000Z"),
   ("end_time", "2021-11-29T19:01:00.000Z"),
   ("error", ""), ("error_file", ""), ("error_line", ""),
   ("platform", "local"), ("postgres_kind", "PostgreSQL"),
   ("matrix_id", "id2"), ("postgres_version", "11.1"),
   ("k8s_version", "1.22"), ("workflow_id", "w"), ("repo", "r"),
   ("branch", "b")]

/-! Observable-level step functions.  Each projection of `fold_artifact`
(one counter map, one breakdown map, one duration entry) evolves by one of
these steps; the fold of a step over the document list characterizes the
corresponding observable of `compute_test_summary`. -/

/-- Guarded counter step: bump the key of a document that satisfies the
condition. -/
def bump_step (c : Doc → Bool) (key : Doc → String) (m : StrMap Nat) (d : Doc) :
    StrMap Nat :=
  if c d then bump m (key d) else m

/-- Guarded breakdown step: record the value under the key for a document
that satisfies the condition. -/
def mark_step (c : Doc → Bool) (key val : Doc → String)
    (m : StrMap (List String)) (d : Doc) : StrMap (List String) :=
  if c d then mark m (key d) (val d) else m

/-- Guarded first-occurrence-wins step for the by-code error text. -/
def setAbs_step (c : Doc → Bool) (key val : Doc → String)
    (m : StrMap String) (d : Doc) : StrMap String :=
  if c d then setIfAbsent m (key d) (val d) else m

/-- Condition under which a document reaches the by-code counters: valid,
non-empty error, state not `ignoreFailed`, and a normal failure. -/
def by_code_counts (d : Doc) : Bool :=
  is_test_artifact d &&
    !((toRecord d).error == "" || (toRecord d).state == "ignoreFailed") &&
    is_normal_failure (toRecord d)

/-- By-code bucket key of a document. -/
def err_key (d : Doc) : String :=
  (toRecord d).error_file ++ ":" ++ (toRecord d).error_line

/-- Condition under which a document reaches the by-special-failure
counters: valid, failed, and not a normal failure. -/
def special_counts (d : Doc) : Bool :=
  is_test_artifact d && is_failed (toRecord d) &&
    !is_normal_failure (toRecord d)

/-- Condition under which a document reaches the by-test failure counters:
valid, failed, and not a ginkgo report failure. -/
def test_fail_counts (d : Doc) : Bool :=
  is_test_artifact d && is_failed (toRecord d) &&
    !is_ginkgo_report_failure (toRecord d)

/-- Duration contributed by a document to the per-test bucket `n`: the
end-minus-start seconds when the document is valid, its timestamps are
admissible, and its tagged name is `n`. -/
def durOf (n : String) (d : Doc) : Option Int :=
  if is_test_artifact d then
    match timedInfo (toRecord d) with
    | some se => if tagged_name (toRecord d) = n then some (se.2 - se.1) else none
    | none => none
  else none

/-- Start timestamp contributed by a document to the suite bucket of
platform `p`, matrix branch `mx`. -/
def startOf (p mx : String) (d : Doc) : Option Int :=
  if is_test_artifact d then
    match timedInfo (toRecord d) with
    | some se =>
      if (toRecord d).platform = p ∧ (toRecord d).matrix_id = mx then some se.1
      else none
    | none => none
  else none

/-- End timestamp contributed by a document to the suite bucket of
platform `p`, matrix branch `mx`. -/
def endOf (p mx : String) (d : Doc) : Option Int :=
  if is_test_artifact d then
    match timedInfo (toRecord d) with
    | some se =>
      if (toRecord d).platform = p ∧ (toRecord d).matrix_id = mx then some se.2
      else none
    | none => none
  else none

/-- Running strict maximum, first value initializing. -/
def maxStep (o : Option Int) (x : Int) : Option Int :=
  match o with
  | none => some x
  | some m => if x > m then some x else some m

/-- Running strict minimum, first value initializing. -/
def minStep (o : Option Int) (x : Int) : Option Int :=
  match o with
  | none => some x
  | some m => if x < m then some x else some m

/-- Fold step of the per-test max entry for name `n`. -/
def maxFold (n : String) (o : Option Int) (d : Doc) : Option Int :=
  match durOf n d with
  | none => o
  | some x => maxStep o x

/-- Fold step of the per-test min entry for name `n`. -/
def minFold (n : String) (o : Option Int) (d : Doc) : Option Int :=
  match durOf n d with
  | none => o
  | some x => minStep o x

/-- Fold step of the suite earliest-start entry for `(p, mx)`. -/
def startFold (p mx : String) (o : Option Int) (d : Doc) : Option Int :=
  match startOf p mx d with
  | none => o
  | some x => minStep o x

/-- Fold step of the suite latest-end entry for `(p, mx)`. -/
def endFold (p mx : String) (o : Option Int) (d : Doc) : Option Int :=
  match endOf p mx d with
  | none => o
  | some x => maxStep o x

/-- Nested suite-map lookup: platform, then matrix branch. -/
def lookup2 (mm : StrMap (StrMap Int)) (p mx : String) : Option Int :=
  lookup? (getD mm p []) mx

/-- Fold step of the presence of the per-test slowest-branch entry for
name `n`. -/
def slowFold (n : String) (bo : Bool) (d : Doc) : Bool :=
  bo || (durOf n d).isSome

/-- Order-insensitive observables of two aggregation states at the sampled
keys `n` (duration bucket), `k` (bucket key), `w` (breakdown member),
`p`/`mx` (suite bucket): all scalar totals, all per-bucket total/failed
counts, all breakdown-set memberships, the by-code error-text key presence,
the duration extrema, and the presence (not the value) of the
slowest-branch pointer. -/
def agree_except_order (s₁ s₂ : Summary) (n k w p mx : String) : Prop :=
  s₁.total_run = s₂.total_run ∧
  s₁.total_failed = s₂.total_failed ∧
  s₁.total_special_fails = s₂.total_special_fails ∧
  getD s₁.by_test.total k 0 = getD s₂.by_test.total k 0 ∧
  getD s₁.by_test.failed k 0 = getD s₂.by_test.failed k 0 ∧
  ((w ∈ getD s₁.by_test.k8s_versions_failed k []) ↔
    (w ∈ getD s₂.by_test.k8s_versions_failed k [])) ∧
  ((w ∈ getD s₁.by_test.pg_versions_failed k []) ↔
    (w ∈ getD s₂.by_test.pg_versions_failed k [])) ∧
  ((w ∈ getD s₁.by_test.platforms_failed k []) ↔
    (w ∈ getD s₂.by_test.platforms_failed k [])) ∧
  getD s₁.by_code.total k 0 = getD s₂.by_code.total k 0 ∧
  ((w ∈ getD s₁.by_code.tests k []) ↔ (w ∈ getD s₂.by_code.tests k [])) ∧
  (lookup? s₁.by_code.errors k).isSome = (lookup? s₂.by_code.errors k).isSome ∧
  getD s₁.by_special_failures.total k 0 =
    getD s₂.by_special_failures.total k 0 ∧
  ((w ∈ getD s₁.by_special_failures.tests_failed k []) ↔
    (w ∈ getD s₂.by_special_failures.tests_failed k [])) ∧
  ((w ∈ getD s₁.by_special_failures.k8s_versions_failed k []) ↔
    (w ∈ getD s₂.by_special_failures.k8s_versions_failed k [])) ∧
  ((w ∈ getD s₁.by_special_failures.pg_versions_failed k []) ↔
    (w ∈ getD s₂.by_special_failures.pg_versions_failed k [])) ∧
  ((w ∈ getD s₁.by_special_failures.platforms_failed k []) ↔
    (w ∈ getD s₂.by_special_failures.platforms_failed k [])) ∧
  getD s₁.by_matrix.total k 0 = getD s₂.by_matrix.total k 0 ∧
  getD s₁.by_matrix.failed k 0 = getD s₂.by_matrix.failed k 0 ∧
  getD s₁.by_k8s.total k 0 = getD s₂.by_k8s.total k 0 ∧
  getD s₁.by_k8s.failed k 0 = getD s₂.by_k8s.failed k 0 ∧
  getD s₁.by_postgres.total k 0 = getD s₂.by_postgres.total k 0 ∧
  getD s₁.by_postgres.failed k 0 = getD s₂.by_postgres.failed k 0 ∧
  getD s₁.by_platform.total k 0 = getD s₂.by_platform.total k 0 ∧
  getD s₁.by_platform.failed k 0 = getD s₂.by_platform.failed k 0 ∧
  lookup? s₁.test_durations.max n = lookup? s₂.test_durations.max n ∧
  lookup? s₁.test_durations.min n = lookup? s₂.test_durations.min n ∧
  (lookup? s₁.test_durations.slowest_branch n).isSome =
    (lookup? s₂.test_durations.slowest_branch n).isSome ∧
  lookup2 s₁.suite_durations.start_time p mx =
    lookup2 s₂.suite_durations.start_time p mx ∧
  lookup2 s₁.suite_durations.end_time p mx =
    lookup2 s₂.suite_durations.end_time p mx

/-- Consistency of one total/failed bucket pair at key `k`: the failed count
never exceeds the total count, and a key present in the failed map has a
count of at least 1 and is present in the total map. -/
def failed_le_total (total failed : StrMap Nat) (k : String) : Prop :=
  getD failed k 0 ≤ getD total k 0 ∧
    ((lookup? failed k).isSome = true →
      1 ≤ getD failed k 0 ∧ (lookup? total k).isSome = true)

/-! Lemmas about the dictionary helpers. -/

theorem lookup_setVal {α : Type} (m : StrMap α) (k : String) (v : α) (q : String) :
    lookup? (setVal m k v) q = if q = k then some v else lookup? m q := by
  induction m with
  | nil => simp only [setVal, lookup?]; split_ifs <;> simp_all [eq_comm]
  | cons kv rest ih =>
    obtain ⟨k', w⟩ := kv
    simp only [setVal]
    split_ifs with hk <;> simp only [lookup?] <;> split_ifs <;> simp_all [eq_comm]

theorem lookup_bump (m : StrMap Nat) (k q : String) :
    lookup? (bump m k) q = if q = k then some (getD m k 0 + 1) else lookup? m q := by
  induction m with
  | nil => simp only [bump, lookup?, getD]; split_ifs <;> simp_all [eq_comm]
  | cons kv rest ih =>
    obtain ⟨k', w⟩ := kv
    simp only [bump, getD] at ih ⊢
    split_ifs with hk <;> simp only [lookup?] <;> split_ifs <;> simp_all [eq_comm]

theorem getD_bump (m : StrMap Nat) (k q : String) :
    getD (bump m k) q 0 = if q = k then getD m k 0 + 1 else getD m q 0 := by
  by_cases h : q = k <;> simp [getD, lookup_bump, h]

theorem mem_addKey (l : List String) (v w : String) :
    w ∈ addKey l v ↔ w ∈ l ∨ w = v := by
  by_cases h : v ∈ l
  · simp only [addKey, if_pos h]
    constructor
    · exact Or.inl
    · rintro (hw | rfl) <;> assumption
  · simp [addKey, h]

theorem mem_getD_mark (m : StrMap (List String)) (k v q w : String) :
    w ∈ getD (mark m k v) q [] ↔ w ∈ getD m q [] ∨ (q = k ∧ w = v) := by
  induction m with
  | nil => simp only [mark, lookup?, getD]; split_ifs <;> simp_all [eq_comm]
  | cons kv rest ih =>
    obtain ⟨k', s⟩ := kv
    simp only [mark, getD] at ih ⊢
    split_ifs with hk <;> simp only [lookup?] <;> split_ifs <;>
      simp_all [eq_comm, mem_addKey]

theorem lookup_append {α : Type} (m m' : StrMap α) (q : String) :
    lookup? (m ++ m') q = ((lookup? m q).or (lookup? m' q)) := by
  induction m with
  | nil => simp [lookup?]
  | cons kv rest ih =>
    obtain ⟨k, v⟩ := kv
    by_cases h : k = q <;> simp [lookup?, h, ih]

theorem lookup_setIfAbsent_isSome (m : StrMap String) (k v q : String) :
    (lookup? (setIfAbsent m k v) q).isSome =
      ((lookup? m q).isSome || q == k) := by
  unfold setIfAbsent
  by_cases hp : (lookup? m k).isSome
  · simp only [if_pos hp]
    by_cases hq : q = k
    · subst hq; simp [hp]
    · simp [hq]
  · simp only [if_neg hp, lookup_append, lookup?]
    by_cases hq : q = k
    · subst hq
      cases h : lookup? m q <;> simp [h, Option.or]
    · have hkq : ¬ k = q := fun hh => hq hh.symm
      cases h : lookup? m q <;> simp [h, Option.or, hkq, hq]

theorem lookup_isSome_iff_mem_keys {α : Type} (m : StrMap α) (q : String) :
    (lookup? m q).isSome ↔ q ∈ m.map Prod.fst := by
  induction m with
  | nil => simp [lookup?]
  | cons kv rest ih =>
    obtain ⟨k, v⟩ := kv
    by_cases h : k = q
    · subst h; simp [lookup?]
    · have hqk : ¬ q = k := fun hh => h hh.symm
      simp [lookup?, h, hqk, ih]

theorem isSome_of_getD_pos (m : StrMap Nat) (q : String) (h : 0 < getD m q 0) :
    (lookup? m q).isSome := by
  cases hl : lookup? m q <;> simp [getD, hl] at h ⊢

/-! Generic characterizations of folded observables. -/

theorem foldl_hom_summary {β : Type} (proj : Summary → β) (F : β → Doc → β)
    (hstep : ∀ s d, proj (fold_artifact s d) = F (proj s) d)
    (docs : List Doc) (s : Summary) :
    proj (List.foldl fold_artifact s docs) = List.foldl F (proj s) docs := by
  induction docs generalizing s with
  | nil => rfl
  | cons d rest ih => rw [List.foldl_cons, List.foldl_cons, ih, hstep]

theorem fold_bump_getD (c : Doc → Bool) (key : Doc → String) (k : String)
    (docs : List Doc) (m : StrMap Nat) :
    getD (List.foldl (bump_step c key) m docs) k 0 =
      getD m k 0 + docs.countP (fun d => c d && (key d == k)) := by
  induction docs generalizing m with
  | nil => simp
  | cons d rest ih =>
    rw [List.foldl_cons, ih, List.countP_cons]
    by_cases hc : c d
    · by_cases hk : key d = k
      · simp [bump_step, hc, hk, getD_bump]
        try omega
      · have hkk : ¬ k = key d := fun hh => hk hh.symm
        simp [bump_step, hc, hk, getD_bump, hkk]
        try omega
    · simp [bump_step, hc]
      try omega

theorem fold_bump_isSome (c : Doc → Bool) (key : Doc → String) (k : String)
    (docs : List Doc) (m : StrMap Nat) :
    (lookup? (List.foldl (bump_step c key) m docs) k).isSome =
      ((lookup? m k).isSome || docs.any fun d => c d && (key d == k)) := by
  induction docs generalizing m with
  | nil => simp
  | cons d rest ih =>
    rw [List.foldl_cons, ih, List.any_cons]
    by_cases hc : c d
    · by_cases hk : key d = k
      · simp [bump_step, hc, hk, lookup_bump]
      · have hkk : ¬ k = key d := fun hh => hk hh.symm
        simp [bump_step, hc, hk, lookup_bump, hkk, Bool.or_comm, Bool.or_left_comm]
    · simp [bump_step, hc]

theorem fold_mark_mem (c : Doc → Bool) (key val : Doc → String) (k w : String)
    (docs : List Doc) (m : StrMap (List String)) :
    w ∈ getD (List.foldl (mark_step c key val) m docs) k [] ↔
      w ∈ getD m k [] ∨ ∃ d ∈ docs, c d = true ∧ key d = k ∧ val d = w := by
  induction docs generalizing m with
  | nil => simp
  | cons d rest ih =>
    rw [List.foldl_cons, ih]
    by_cases hc : c d
    · simp only [mark_step, if_pos hc, mem_getD_mark, List.mem_cons]
      constructor
      · rintro (((hw | ⟨rfl, rfl⟩) | ⟨d', hd', hprop⟩))
        · exact Or.inl hw
        · exact Or.inr ⟨d, Or.inl rfl, hc, rfl, rfl⟩
        · exact Or.inr ⟨d', Or.inr hd', hprop⟩
      · rintro (hw | ⟨d', (rfl | hd'), hcd, hkd, hvd⟩)
        · exact Or.inl (Or.inl hw)
        · exact Or.inl (Or.inr ⟨hkd.symm, hvd.symm⟩)
        · exact Or.inr ⟨d', hd', hcd, hkd, hvd⟩
    · simp only [mark_step, if_neg hc, List.mem_cons]
      constructor
      · rintro (hw | ⟨d', hd', hprop⟩)
        · exact Or.inl hw
        · exact Or.inr ⟨d', Or.inr hd', hprop⟩
      · rintro (hw | ⟨d', (rfl | hd'), hcd, hkd, hvd⟩)
        · exact Or.inl hw
        · exact absurd hcd (by simp [hc])
        · exact Or.inr ⟨d', hd', hcd, hkd, hvd⟩

theorem fold_setAbs_isSome (c : Doc → Bool) (key val : Doc → String)
    (k : String) (docs : List Doc) (m : StrMap String) :
    (lookup? (List.foldl (setAbs_step c key val) m docs) k).isSome =
      ((lookup? m k).isSome || docs.any fun d => c d && (key d == k)) := by
  induction docs generalizing m with
  | nil => simp
  | cons d rest ih =>
    rw [List.foldl_cons, ih, List.any_cons]
    by_cases hc : c d
    · by_cases hk : key d = k
      · simp [setAbs_step, hc, hk, lookup_setIfAbsent_isSome]
      · have hkk : (k == key d) = false := by simpa using fun hh => hk hh.symm
        have hkd : (key d == k) = false := by simpa using hk
        simp [setAbs_step, hc, hkk, hkd, lookup_setIfAbsent_isSome]
    · simp [setAbs_step, hc]

theorem total_run_char (docs : List Doc) (s : Summary) :
    (List.foldl fold_artifact s docs).total_run =
      s.total_run + docs.countP is_test_artifact := by
  induction docs generalizing s with
  | nil => simp
  | cons d rest ih =>
    rw [List.foldl_cons, ih, List.countP_cons]
    by_cases hv : is_test_artifact d <;> simp [fold_artifact, hv] <;> omega

theorem total_failed_char (docs : List Doc) (s : Summary) :
    (List.foldl fold_artifact s docs).total_failed =
      s.total_failed +
        docs.countP (fun d => is_test_artifact d && is_failed (toRecord d)) := by
  induction docs generalizing s with
  | nil => simp
  | cons d rest ih =>
    rw [List.foldl_cons, ih, List.countP_cons]
    by_cases hv : is_test_artifact d
    · by_cases hf : is_failed (toRecord d)
      · simp [fold_artifact, hv, hf]
        omega
      · simp [fold_artifact, hv, hf]
    · simp [fold_artifact, hv]

theorem total_special_char (docs : List Doc) (s : Summary) :
    (List.foldl fold_artifact s docs).total_special_fails =
      s.total_special_fails +
        docs.countP
          (fun d => is_test_artifact d && !is_normal_failure (toRecord d)) := by
  induction docs generalizing s with
  | nil => simp
  | cons d rest ih =>
    rw [List.foldl_cons, ih, List.countP_cons]
    by_cases hv : is_test_artifact d
    · by_cases hf : is_normal_failure (toRecord d)
      · simp [fold_artifact, hv, hf]
      · simp [fold_artifact, hv, hf]
        omega
    · simp [fold_artifact, hv]

/-! Per-record projections of `fold_artifact` onto observable-level steps. -/

theorem by_test_total_step (s : Summary) (d : Doc) :
    (fold_artifact s d).by_test.total =
      bump_step is_test_artifact (fun d => (toRecord d).name) s.by_test.total d := by
  by_cases hv : is_test_artifact d
  · simp only [fold_artifact, if_pos hv, bump_step]
    unfold count_bucketed_by_test
    split_ifs <;> rfl
  · simp [fold_artifact, bump_step, hv]

theorem by_test_failed_step (s : Summary) (d : Doc) :
    (fold_artifact s d).by_test.failed =
      bump_step test_fail_counts (fun d => (toRecord d).name) s.by_test.failed d := by
  by_cases hv : is_test_artifact d
  · simp only [fold_artifact, if_pos hv, bump_step, test_fail_counts, hv,
      Bool.true_and]
    unfold count_bucketed_by_test
    split_ifs <;> simp_all
  · simp [fold_artifact, bump_step, test_fail_counts, hv]

theorem by_test_k8s_step (s : Summary) (d : Doc) :
    (fold_artifact s d).by_test.k8s_versions_failed =
      mark_step test_fail_counts (fun d => (toRecord d).name)
        (fun d => (toRecord d).k8s_version) s.by_test.k8s_versions_failed d := by
  by_cases hv : is_test_artifact d
  · simp only [fold_artifact, if_pos hv, mark_step, test_fail_counts, hv,
      Bool.true_and]
    unfold count_bucketed_by_test
    split_ifs <;> simp_all
  · simp [fold_artifact, mark_step, test_fail_counts, hv]

theorem by_test_pg_step (s : Summary) (d : Doc) :
    (fold_artifact s d).by_test.pg_versions_failed =
      mark_step test_fail_counts (fun d => (toRecord d).name)
        (fun d => (toRecord d).pg_version) s.by_test.pg_versions_failed d := by
  by_cases hv : is_test_artifact d
  · simp only [fold_artifact, if_pos hv, mark_step, test_fail_counts, hv,
      Bool.true_and]
    unfold count_bucketed_by_test
    split_ifs <;> simp_all
  · simp [fold_artifact, mark_step, test_fail_counts, hv]

theorem by_test_platform_step (s : Summary) (d : Doc) :
    (fold_artifact s d).by_test.platforms_failed =
      mark_step test_fail_counts (fun d => (toRecord d).name)
        (fun d => (toRecord d).platform) s.by_test.platforms_failed d := by
  by_cases hv : is_test_artifact d
  · simp only [fold_artifact, if_pos hv, mark_step, test_fail_counts, hv,
      Bool.true_and]
    unfold count_bucketed_by_test
    split_ifs <;> simp_all
  · simp [fold_artifact, mark_step, test_fail_counts, hv]

theorem by_code_total_step (s : Summary) (d : Doc) :
    (fold_artifact s d).by_code.total =
      bump_step by_code_counts err_key s.by_code.total d := by
  by_cases hv : is_test_artifact d
  · simp only [fold_artifact, if_pos hv, bump_step, by_code_counts, hv,
      Bool.true_and]
    unfold count_bucketed_by_code
    split_ifs <;> simp_all [err_key]
  · simp [fold_artifact, bump_step, by_code_counts, hv]

theorem by_code_tests_step (s : Summary) (d : Doc) :
    (fold_artifact s d).by_code.tests =
      mark_step by_code_counts err_key (fun d => (toRecord d).name)
        s.by_code.tests d := by
  by_cases hv : is_test_artifact d
  · simp only [fold_artifact, if_pos hv, mark_step, by_code_counts, hv,
      Bool.true_and]
    unfold count_bucketed_by_code
    split_ifs <;> simp_all [err_key]
  · simp [fold_artifact, mark_step, by_code_counts, hv]

theorem by_code_errors_step (s : Summary) (d : Doc) :
    (fold_artifact s d).by_code.errors =
      setAbs_step by_code_counts err_key (fun d => (toRecord d).error)
        s.by_code.errors d := by
  by_cases hv : is_test_artifact d
  · simp only [fold_artifact, if_pos hv, setAbs_step, by_code_counts, hv,
      Bool.true_and]
    unfold count_bucketed_by_code
    split_ifs <;> simp_all [err_key]
  · simp [fold_artifact, setAbs_step, by_code_counts, hv]

theorem by_special_total_step (s : Summary) (d : Doc) :
    (fold_artifact s d).by_special_failures.total =
      bump_step special_counts (fun d => special_failure_label (toRecord d))
        s.by_special_failures.total d := by
  by_cases hv : is_test_artifact d
  · simp only [fold_artifact, if_pos hv, bump_step, special_counts, hv,
      Bool.true_and]
    unfold count_bucketed_by_special_failures
    split_ifs <;> simp_all
  · simp [fold_artifact, bump_step, special_counts, hv]

theorem by_special_tests_step (s : Summary) (d : Doc) :
    (fold_artifact s d).by_special_failures.tests_failed =
      mark_step special_counts (fun d => special_failure_label (toRecord d))
        (fun d => (toRecord d).name) s.by_special_failures.tests_failed d := by
  by_cases hv : is_test_artifact d
  · simp only [fold_artifact, if_pos hv, mark_step, special_counts, hv,
      Bool.true_and]
    unfold count_bucketed_by_special_failures
    split_ifs <;> simp_all
  · simp [fold_artifact, mark_step, special_counts, hv]

theorem by_special_k8s_step (s : Summary) (d : Doc) :
    (fold_artifact s d).by_special_failures.k8s_versions_failed =
      mark_step special_counts (fun d => special_failure_label (toRecord d))
        (fun d => (toRecord d).k8s_version)
        s.by_special_failures.k8s_versions_failed d := by
  by_cases hv : is_test_artifact d
  · simp only [fold_artifact, if_pos hv, mark_step, special_counts, hv,
      Bool.true_and]
    unfold count_bucketed_by_special_failures
    split_ifs <;> simp_all
  · simp [fold_artifact, mark_step, special_counts, hv]

theorem by_special_pg_step (s : Summary) (d : Doc) :
    (fold_artifact s d).by_special_failures.pg_versions_failed =
      mark_step special_counts (fun d => special_failure_label (toRecord d))
        (fun d => (toRecord d).pg_version)
        s.by_special_failures.pg_versions_failed d := by
  by_cases hv : is_test_artifact d
  · simp only [fold_artifact, if_pos hv, mark_step, special_counts, hv,
      Bool.true_and]
    unfold count_bucketed_by_special_failures
    split_ifs <;> simp_all
  · simp [fold_artifact, mark_step, special_counts, hv]

theorem by_special_platform_step (s : Summary) (d : Doc) :
    (fold_artifact s d).by_special_failures.platforms_failed =
      mark_step special_counts (fun d => special_failure_label (toRecord d))
        (fun d => (toRecord d).platform)
        s.by_special_failures.platforms_failed d := by
  by_cases hv : is_test_artifact d
  · simp only [fold_artifact, if_pos hv, mark_step, special_counts, hv,
      Bool.true_and]
    unfold count_bucketed_by_special_failures
    split_ifs <;> simp_all
  · simp [fold_artifact, mark_step, special_counts, hv]

theorem by_matrix_total_step (s : Summary) (d : Doc) :
    (fold_artifact s d).by_matrix.total =
      bump_step is_test_artifact (fun d => (toRecord d).matrix_id)
        s.by_matrix.total d := by
  by_cases hv : is_test_artifact d <;>
    simp [fold_artifact, bump_step, count_bucketized_stats, hv]

theorem by_matrix_failed_step (s : Summary) (d : Doc) :
    (fold_artifact s d).by_matrix.failed =
      bump_step (fun d => is_test_artifact d && is_failed (toRecord d))
        (fun d => (toRecord d).matrix_id) s.by_matrix.failed d := by
  by_cases hv : is_test_artifact d
  · by_cases hf : is_failed (toRecord d) <;>
      simp [fold_artifact, bump_step, count_bucketized_stats, hv, hf]
  · simp [fold_artifact, bump_step, hv]

theorem by_k8s_total_step (s : Summary) (d : Doc) :
    (fold_artifact s d).by_k8s.total =
      bump_step is_test_artifact (fun d => (toRecord d).k8s_version)
        s.by_k8s.total d := by
  by_cases hv : is_test_artifact d <;>
    simp [fold_artifact, bump_step, count_bucketized_stats, hv]

theorem by_k8s_failed_step (s : Summary) (d : Doc) :
    (fold_artifact s d).by_k8s.failed =
      bump_step (fun d => is_test_artifact d && is_failed (toRecord d))
        (fun d => (toRecord d).k8s_version) s.by_k8s.failed d := by
  by_cases hv : is_test_artifact d
  · by_cases hf : is_failed (toRecord d) <;>
      simp [fold_artifact, bump_step, count_bucketized_stats, hv, hf]
  · simp [fold_artifact, bump_step, hv]

theorem by_postgres_total_step (s : Summary) (d : Doc) :
    (fold_artifact s d).by_postgres.total =
      bump_step is_test_artifact (fun d => (toRecord d).pg_version)
        s.by_postgres.total d := by
  by_cases hv : is_test_artifact d <;>
    simp [fold_artifact, bump_step, count_bucketized_stats, hv]

theorem by_postgres_failed_step (s : Summary) (d : Doc) :
    (fold_artifact s d).by_postgres.failed =
      bump_step (fun d => is_test_artifact d && is_failed (toRecord d))
        (fun d => (toRecord d).pg_version) s.by_postgres.failed d := by
  by_cases hv : is_test_artifact d
  · by_cases hf : is_failed (toRecord d) <;>
      simp [fold_artifact, bump_step, count_bucketized_stats, hv, hf]
  · simp [fold_artifact, bump_step, hv]

theorem by_platform_total_step (s : Summary) (d : Doc) :
    (fold_artifact s d).by_platform.total =
      bump_step is_test_artifact (fun d => (toRecord d).platform)
        s.by_platform.total d := by
  by_cases hv : is_test_artifact d <;>
    simp [fold_artifact, bump_step, count_bucketized_stats, hv]

theorem by_platform_failed_step (s : Summary) (d : Doc) :
    (fold_artifact s d).by_platform.failed =
      bump_step (fun d => is_test_artifact d && is_failed (toRecord d))
        (fun d => (toRecord d).platform) s.by_platform.failed d := by
  by_cases hv : is_test_artifact d
  · by_cases hf : is_failed (toRecord d) <;>
      simp [fold_artifact, bump_step, count_bucketized_stats, hv, hf]
  · simp [fold_artifact, bump_step, hv]

/-! Fold-level characterizations of the aggregation observables. -/

theorem by_test_total_fold (docs : List Doc) (k : String) :
    getD (compute_test_summary docs).by_test.total k 0 =
      docs.countP fun d => is_test_artifact d && ((toRecord d).name == k) := by
  unfold compute_test_summary
  have h : (List.foldl fold_artifact init_summary docs).by_test.total =
      List.foldl (bump_step is_test_artifact fun d => (toRecord d).name)
        init_summary.by_test.total docs :=
    foldl_hom_summary (fun s => s.by_test.total)
      (bump_step is_test_artifact fun d => (toRecord d).name)
      by_test_total_step docs init_summary
  rw [h, fold_bump_getD]
  simp [init_summary, getD, lookup?]

theorem by_test_failed_fold (docs : List Doc) (k : String) :
    getD (compute_test_summary docs).by_test.failed k 0 =
      docs.countP fun d => test_fail_counts d && ((toRecord d).name == k) := by
  unfold compute_test_summary
  have h : (List.foldl fold_artifact init_summary docs).by_test.failed =
      List.foldl (bump_step test_fail_counts fun d => (toRecord d).name)
        init_summary.by_test.failed docs :=
    foldl_hom_summary (fun s => s.by_test.failed)
      (bump_step test_fail_counts fun d => (toRecord d).name)
      by_test_failed_step docs init_summary
  rw [h, fold_bump_getD]
  simp [init_summary, getD, lookup?]

theorem by_test_k8s_mem (docs : List Doc) (k w : String) :
    (w ∈ getD (compute_test_summary docs).by_test.k8s_versions_failed k []) ↔
      ∃ d ∈ docs, test_fail_counts d = true ∧ (toRecord d).name = k ∧
        (toRecord d).k8s_version = w := by
  unfold compute_test_summary
  have h : (List.foldl fold_artifact init_summary docs).by_test.k8s_versions_failed =
      List.foldl
        (mark_step test_fail_counts (fun d => (toRecord d).name)
          fun d => (toRecord d).k8s_version)
        init_summary.by_test.k8s_versions_failed docs :=
    foldl_hom_summary (fun s => s.by_test.k8s_versions_failed)
      (mark_step test_fail_counts (fun d => (toRecord d).name)
        fun d => (toRecord d).k8s_version)
      by_test_k8s_step docs init_summary
  rw [h, fold_mark_mem]
  simp [init_summary, getD, lookup?]

theorem by_test_pg_mem (docs : List Doc) (k w : String) :
    (w ∈ getD (compute_test_summary docs).by_test.pg_versions_failed k []) ↔
      ∃ d ∈ docs, test_fail_counts d = true ∧ (toRecord d).name = k ∧
        (toRecord d).pg_version = w := by
  unfold compute_test_summary
  have h : (List.foldl fold_artifact init_summary docs).by_test.pg_versions_failed =
      List.foldl
        (mark_step test_fail_counts (fun d => (toRecord d).name)
          fun d => (toRecord d).pg_version)
        init_summary.by_test.pg_versions_failed docs :=
    foldl_hom_summary (fun s => s.by_test.pg_versions_failed)
      (mark_step test_fail_counts (fun d => (toRecord d).name)
        fun d => (toRecord d).pg_version)
      by_test_pg_step docs init_summary
  rw [h, fold_mark_mem]
  simp [init_summary, getD, lookup?]

theorem by_test_platform_mem (docs : List Doc) (k w : String) :
    (w ∈ getD (compute_test_summary docs).by_test.platforms_failed k []) ↔
      ∃ d ∈ docs, test_fail_counts d = true ∧ (toRecord d).name = k ∧
        (toRecord d).platform = w := by
  unfold compute_test_summary
  have h : (List.foldl fold_artifact init_summary docs).by_test.platforms_failed =
      List.foldl
        (mark_step test_fail_counts (fun d => (toRecord d).name)
          fun d => (toRecord d).platform)
        init_summary.by_test.platforms_failed docs :=
    foldl_hom_summary (fun s => s.by_test.platforms_failed)
      (mark_step test_fail_counts (fun d => (toRecord d).name)
        fun d => (toRecord d).platform)
      by_test_platform_step docs init_summary
  rw [h, fold_mark_mem]
  simp [init_summary, getD, lookup?]

theorem by_code_total_fold (docs : List Doc) (k : String) :
    getD (compute_test_summary docs).by_code.total k 0 =
      docs.countP fun d => by_code_counts d && (err_key d == k) := by
  unfold compute_test_summary
  have h : (List.foldl fold_artifact init_summary docs).by_code.total =
      List.foldl (bump_step by_code_counts err_key)
        init_summary.by_code.total docs :=
    foldl_hom_summary (fun s => s.by_code.total)
      (bump_step by_code_counts err_key)
      by_code_total_step docs init_summary
  rw [h, fold_bump_getD]
  simp [init_summary, getD, lookup?]

theorem by_code_tests_mem (docs : List Doc) (k w : String) :
    (w ∈ getD (compute_test_summary docs).by_code.tests k []) ↔
      ∃ d ∈ docs, by_code_counts d = true ∧ err_key d = k ∧
        (toRecord d).name = w := by
  unfold compute_test_summary
  have h : (List.foldl fold_artifact init_summary docs).by_code.tests =
      List.foldl (mark_step by_code_counts err_key fun d => (toRecord d).name)
        init_summary.by_code.tests docs :=
    foldl_hom_summary (fun s => s.by_code.tests)
      (mark_step by_code_counts err_key fun d => (toRecord d).name)
      by_code_tests_step docs init_summary
  rw [h, fold_mark_mem]
  simp [init_summary, getD, lookup?]

theorem by_code_errors_isSome (docs : List Doc) (k : String) :
    (lookup? (compute_test_summary docs).by_code.errors k).isSome =
      docs.any fun d => by_code_counts d && (err_key d == k) := by
  unfold compute_test_summary
  have h : (List.foldl fold_artifact init_summary docs).by_code.errors =
      List.foldl (setAbs_step by_code_counts err_key fun d => (toRecord d).error)
        init_summary.by_code.errors docs :=
    foldl_hom_summary (fun s => s.by_code.errors)
      (setAbs_step by_code_counts err_key fun d => (toRecord d).error)
      by_code_errors_step docs init_summary
  rw [h, fold_setAbs_isSome]
  simp [init_summary, lookup?]

theorem by_special_total_fold (docs : List Doc) (k : String) :
    getD (compute_test_summary docs).by_special_failures.total k 0 =
      docs.countP fun d =>
        special_counts d && (special_failure_label (toRecord d) == k) := by
  unfold compute_test_summary
  have h : (List.foldl fold_artifact init_summary docs).by_special_failures.total =
      List.foldl
        (bump_step special_counts fun d => special_failure_label (toRecord d))
        init_summary.by_special_failures.total docs :=
    foldl_hom_summary (fun s => s.by_special_failures.total)
      (bump_step special_counts fun d => special_failure_label (toRecord d))
      by_special_total_step docs init_summary
  rw [h, fold_bump_getD]
  simp [init_summary, getD, lookup?]

theorem by_special_tests_mem (docs : List Doc) (k w : String) :
    (w ∈ getD (compute_test_summary docs).by_special_failures.tests_failed k []) ↔
      ∃ d ∈ docs, special_counts d = true ∧
        special_failure_label (toRecord d) = k ∧ (toRecord d).name = w := by
  unfold compute_test_summary
  have h :
      (List.foldl fold_artifact init_summary docs).by_special_failures.tests_failed =
      List.foldl
        (mark_step special_counts (fun d => special_failure_label (toRecord d))
          fun d => (toRecord d).name)
        init_summary.by_special_failures.tests_failed docs :=
    foldl_hom_summary (fun s => s.by_special_failures.tests_failed)
      (mark_step special_counts (fun d => special_failure_label (toRecord d))
        fun d => (toRecord d).name)
      by_special_tests_step docs init_summary
  rw [h, fold_mark_mem]
  simp [init_summary, getD, lookup?]

theorem by_special_k8s_mem (docs : List Doc) (k w : String) :
    (w ∈
        getD (compute_test_summary docs).by_special_failures.k8s_versions_failed
          k []) ↔
      ∃ d ∈ docs, special_counts d = true ∧
        special_failure_label (toRecord d) = k ∧
        (toRecord d).k8s_version = w := by
  unfold compute_test_summary
  have h :
      (List.foldl fold_artifact init_summary
          docs).by_special_failures.k8s_versions_failed =
      List.foldl
        (mark_step special_counts (fun d => special_failure_label (toRecord d))
          fun d => (toRecord d).k8s_version)
        init_summary.by_special_failures.k8s_versions_failed docs :=
    foldl_hom_summary (fun s => s.by_special_failures.k8s_versions_failed)
      (mark_step special_counts (fun d => special_failure_label (toRecord d))
        fun d => (toRecord d).k8s_version)
      by_special_k8s_step docs init_summary
  rw [h, fold_mark_mem]
  simp [init_summary, getD, lookup?]

theorem by_special_pg_mem (docs : List Doc) (k w : String) :
    (w ∈
        getD (compute_test_summary docs).by_special_failures.pg_versions_failed
          k []) ↔
      ∃ d ∈ docs, special_counts d = true ∧
        special_failure_label (toRecord d) = k ∧
        (toRecord d).pg_version = w := by
  unfold compute_test_summary
  have h :
      (List.foldl fold_artifact init_summary
          docs).by_special_failures.pg_versions_failed =
      List.foldl
        (mark_step special_counts (fun d => special_failure_label (toRecord d))
          fun d => (toRecord d).pg_version)
        init_summary.by_special_failures.pg_versions_failed docs :=
    foldl_hom_summary (fun s => s.by_special_failures.pg_versions_failed)
      (mark_step special_counts (fun d => special_failure_label (toRecord d))
        fun d => (toRecord d).pg_version)
      by_special_pg_step docs init_summary
  rw [h, fold_mark_mem]
  simp [init_summary, getD, lookup?]

theorem by_special_platform_mem (docs : List Doc) (k w : String) :
    (w ∈
        getD (compute_test_summary docs).by_special_failures.platforms_failed
          k []) ↔
      ∃ d ∈ docs, special_counts d = true ∧
        special_failure_label (toRecord d) = k ∧
        (toRecord d).platform = w := by
  unfold compute_test_summary
  have h :
      (List.foldl fold_artifact init_summary
          docs).by_special_failures.platforms_failed =
      List.foldl
        (mark_step special_counts (fun d => special_failure_label (toRecord d))
          fun d => (toRecord d).platform)
        init_summary.by_special_failures.platforms_failed docs :=
    foldl_hom_summary (fun s => s.by_special_failures.platforms_failed)
      (mark_step special_counts (fun d => special_failure_label (toRecord d))
        fun d => (toRecord d).platform)
      by_special_platform_step docs init_summary
  rw [h, fold_mark_mem]
  simp [init_summary, getD, lookup?]

theorem fold_bump_inv (cT cF : Doc → Bool) (key : Doc → String)
    (hsub : ∀ d, cF d = true → cT d = true) (docs : List Doc) (k : String) :
    failed_le_total (List.foldl (bump_step cT key) [] docs)
      (List.foldl (bump_step cF key) [] docs) k := by
  unfold failed_le_total
  rw [fold_bump_getD, fold_bump_getD, fold_bump_isSome, fold_bump_isSome]
  simp only [getD, lookup?, Option.getD_none, Option.isSome_none, Bool.false_or,
    Nat.zero_add]
  refine ⟨?_, fun hs => ⟨?_, ?_⟩⟩
  · exact List.countP_mono_left fun d hd h => by
      simp only [Bool.and_eq_true] at h ⊢
      exact ⟨hsub d h.1, h.2⟩
  · obtain ⟨d, hd, hp⟩ := List.any_eq_true.mp hs
    exact List.countP_pos_iff.mpr ⟨d, hd, hp⟩
  · obtain ⟨d, hd, hp⟩ := List.any_eq_true.mp hs
    refine List.any_eq_true.mpr ⟨d, hd, ?_⟩
    simp only [Bool.and_eq_true] at hp ⊢
    exact ⟨hsub d hp.1, hp.2⟩

theorem alert_lines_mem (metric m b : String) (bk : Buckets) :
    ((m, b) ∈ alert_lines_for metric bk) ↔
      m = metric ∧ b ∈ bk.failed.map Prod.fst ∧
        getD bk.failed b 0 = getD bk.total b 0 ∧ 1 < getD bk.failed b 0 := by
  simp only [alert_lines_for, List.mem_map, List.mem_filter, Prod.mk.injEq]
  constructor
  · rintro ⟨x, ⟨hx, hp⟩, hm, rfl⟩
    simp only [Bool.and_eq_true, beq_iff_eq, decide_eq_true_eq] at hp
    exact ⟨hm.symm, hx, hp.1, hp.2⟩
  · rintro ⟨rfl, hx, h1, h2⟩
    refine ⟨b, ⟨hx, ?_⟩, rfl, rfl⟩
    simp only [Bool.and_eq_true, beq_iff_eq, decide_eq_true_eq]
    exact ⟨h1, h2⟩

theorem alert_lines_mem_self (metric b : String) (bk : Buckets) :
    ((metric, b) ∈ alert_lines_for metric bk) ↔
      getD bk.failed b 0 = getD bk.total b 0 ∧ 1 < getD bk.failed b 0 := by
  rw [alert_lines_mem]
  constructor
  · rintro ⟨_, _, h1, h2⟩
    exact ⟨h1, h2⟩
  · rintro ⟨h1, h2⟩
    refine ⟨rfl, ?_, h1, h2⟩
    exact (lookup_isSome_iff_mem_keys _ _).mp
      (isSome_of_getD_pos _ _ (by omega))

theorem alert_lines_not_mem (metric m b : String) (bk : Buckets)
    (h : m ≠ metric) : ((m, b) ∉ alert_lines_for metric bk) := by
  rw [alert_lines_mem]
  rintro ⟨rfl, _⟩
  exact h rfl

/-- C2.  Counterexample: a single passed artifact yields
`total_special_fails = 1` although it is not a failure at all, so
`total_special_fails` does not count only failed records as the claim
states. -/
theorem C2_counterexample :
    (compute_test_summary [passed_doc]).total_special_fails = 1 ∧
      is_failed (toRecord passed_doc) = false := by
  constructor
  · rfl
  · rfl

/-- C2 (amended): `total_special_fails` equals the number of valid records
that are not classified as normal failures — this includes every passed,
skipped and ignoreFailed record in addition to the special, external and
report failures, not only failed records. -/
theorem C2_total_special_fails_counts_non_normal (docs : List Doc) :
    (compute_test_summary docs).total_special_fails =
      docs.countP fun d =>
        is_test_artifact d && !is_normal_failure (toRecord d) := by
  have h := total_special_char docs init_summary
  unfold compute_test_summary
  rw [h]
  simp [init_summary]

/-- C4: on a directory whose files parse to valid artifacts only,
`compute_test_summary` reports `total_run` equal to the number of artifacts
and `total_failed` equal to the number of artifacts the classifier marks
failed. -/
theorem C4_total_run_failed (docs : List Doc)
    (h : ∀ d ∈ docs, is_test_artifact d = true) :
    (compute_test_summary docs).total_run = docs.length ∧
      (compute_test_summary docs).total_failed =
        docs.countP fun d => is_failed (toRecord d) := by
  constructor
  · have hr := total_run_char docs init_summary
    unfold compute_test_summary
    rw [hr]
    simp only [init_summary, Nat.zero_add]
    exact List.countP_eq_length.mpr h
  · have hf := total_failed_char docs init_summary
    unfold compute_test_summary
    rw [hf]
    simp only [init_summary, Nat.zero_add]
    exact List.countP_congr fun d hd => by simp [h d hd]

/-- C4 witness: a concrete directory of two valid artifacts, one passed and
one failed. -/
theorem C4_witness :
    (∀ d ∈ [passed_doc, failed_doc], is_test_artifact d = true) ∧
      ((compute_test_summary [passed_doc, failed_doc]).total_run =
          [passed_doc, failed_doc].length ∧
        (compute_test_summary [passed_doc, failed_doc]).total_failed =
          [passed_doc, failed_doc].countP fun d => is_failed (toRecord d)) :=
  ⟨by decide, C4_total_run_failed [passed_doc, failed_doc] (by decide)⟩

/-- C7: for every key, the by-code total count equals the number of valid
records that are normal failures with a non-empty error, a state other than
`ignoreFailed`, and an `error_file:error_line` pair rendering to that key. -/
theorem C7_by_code_total_count (docs : List Doc) (k : String) :
    getD (compute_test_summary docs).by_code.total k 0 =
      docs.countP fun d =>
        is_test_artifact d && is_normal_failure (toRecord d) &&
          ((toRecord d).error != "") &&
          ((toRecord d).state != "ignoreFailed") &&
          ((toRecord d).error_file ++ ":" ++ (toRecord d).error_line == k) := by
  rw [by_code_total_fold]
  exact List.countP_congr fun d hd => by
    simp only [by_code_counts, err_key, Bool.and_eq_true, Bool.not_eq_true',
      Bool.or_eq_false_iff, bne_iff_ne, ne_eq, beq_eq_false_iff_ne, beq_iff_eq]
    tauto

/-- C5: with not all runs failed, `format_alerts` emits a per-bucket alert
line for a bucket of one of the four dimensions exactly when that bucket's
failed count equals its total count and exceeds 1; in particular a bucket
with failed = total = 1 never produces a line. -/
theorem C5_alert_condition (s : Summary) (b : String)
    (hne : s.total_run ≠ s.total_failed) :
    ((("by_test" : String), b) ∈ format_alerts_lines s ↔
        getD s.by_test.failed b 0 = getD s.by_test.total b 0 ∧
          1 < getD s.by_test.failed b 0) ∧
    ((("by_k8s" : String), b) ∈ format_alerts_lines s ↔
        getD s.by_k8s.failed b 0 = getD s.by_k8s.total b 0 ∧
          1 < getD s.by_k8s.failed b 0) ∧
    ((("by_postgres" : String), b) ∈ format_alerts_lines s ↔
        getD s.by_postgres.failed b 0 = getD s.by_postgres.total b 0 ∧
          1 < getD s.by_postgres.failed b 0) ∧
    ((("by_platform" : String), b) ∈ format_alerts_lines s ↔
        getD s.by_platform.failed b 0 = getD s.by_platform.total b 0 ∧
          1 < getD s.by_platform.failed b 0) := by
  have hne' : (s.total_run == s.total_failed) = false := by
    simpa using hne
  unfold format_alerts_lines
  rw [hne']
  simp only [Bool.false_eq_true, if_false, List.mem_append]
  refine ⟨?_, ?_, ?_, ?_⟩ <;>
    constructor
  · rintro (((h | h) | h) | h)
    · exact (alert_lines_mem_self _ _ _).mp h
    · exact absurd h (alert_lines_not_mem _ _ _ _ (by decide))
    · exact absurd h (alert_lines_not_mem _ _ _ _ (by decide))
    · exact absurd h (alert_lines_not_mem _ _ _ _ (by decide))
  · intro h
    exact Or.inl (Or.inl (Or.inl ((alert_lines_mem_self _ _ _).mpr h)))
  · rintro (((h | h) | h) | h)
    · exact absurd h (alert_lines_not_mem _ _ _ _ (by decide))
    · exact (alert_lines_mem_self _ _ _).mp h
    · exact absurd h (alert_lines_not_mem _ _ _ _ (by decide))
    · exact absurd h (alert_lines_not_mem _ _ _ _ (by decide))
  · intro h
    exact Or.inl (Or.inl (Or.inr ((alert_lines_mem_self _ _ _).mpr h)))
  · rintro (((h | h) | h) | h)
    · exact absurd h (alert_lines_not_mem _ _ _ _ (by decide))
    · exact absurd h (alert_lines_not_mem _ _ _ _ (by decide))
    · exact (alert_lines_mem_self _ _ _).mp h
    · exact absurd h (alert_lines_not_mem _ _ _ _ (by decide))
  · intro h
    exact Or.inl (Or.inr ((alert_lines_mem_self _ _ _).mpr h))
  · rintro (((h | h) | h) | h)
    · exact absurd h (alert_lines_not_mem _ _ _ _ (by decide))
    · exact absurd h (alert_lines_not_mem _ _ _ _ (by decide))
    · exact absurd h (alert_lines_not_mem _ _ _ _ (by decide))
    · exact (alert_lines_mem_self _ _ _).mp h
  · intro h
    exact Or.inr ((alert_lines_mem_self _ _ _).mpr h)

/-- C5 witness: the alert condition instantiated at a concrete summary with
two runs and one failure, for the k8s bucket key. -/
theorem C5_witness :
    (compute_test_summary [passed_doc, failed_doc]).total_run ≠
        (compute_test_summary [passed_doc, failed_doc]).total_failed ∧
      (((("by_test" : String), ("1.22" : String)) ∈
            format_alerts_lines (compute_test_summary [passed_doc, failed_doc]) ↔
          getD (compute_test_summary [passed_doc, failed_doc]).by_test.failed
              "1.22" 0 =
            getD (compute_test_summary [passed_doc, failed_doc]).by_test.total
              "1.22" 0 ∧
            1 < getD (compute_test_summary
              [passed_doc, failed_doc]).by_test.failed "1.22" 0) ∧
        ((("by_k8s" : String), ("1.22" : String)) ∈
            format_alerts_lines (compute_test_summary [passed_doc, failed_doc]) ↔
          getD (compute_test_summary [passed_doc, failed_doc]).by_k8s.failed
              "1.22" 0 =
            getD (compute_test_summary [passed_doc, failed_doc]).by_k8s.total
              "1.22" 0 ∧
            1 < getD (compute_test_summary
              [passed_doc, failed_doc]).by_k8s.failed "1.22" 0) ∧
        ((("by_postgres" : String), ("1.22" : String)) ∈
            format_alerts_lines (compute_test_summary [passed_doc, failed_doc]) ↔
          getD (compute_test_summary [passed_doc, failed_doc]).by_postgres.failed
              "1.22" 0 =
            getD (compute_test_summary [passed_doc, failed_doc]).by_postgres.total
              "1.22" 0 ∧
            1 < getD (compute_test_summary
              [passed_doc, failed_doc]).by_postgres.failed "1.22" 0) ∧
        ((("by_platform" : String), ("1.22" : String)) ∈
            format_alerts_lines (compute_test_summary [passed_doc, failed_doc]) ↔
          getD (compute_test_summary [passed_doc, failed_doc]).by_platform.failed
              "1.22" 0 =
            getD (compute_test_summary [passed_doc, failed_doc]).by_platform.total
              "1.22" 0 ∧
            1 < getD (compute_test_summary
              [passed_doc, failed_doc]).by_platform.failed "1.22" 0)) :=
  ⟨by decide,
    C5_alert_condition (compute_test_summary [passed_doc, failed_doc]) "1.22"
      (by decide)⟩

/-- C10: after folding any list of documents (prefixes included, since the
list is arbitrary), each of the five bucketed dimensions satisfies: a key
of the failed map is a key of the total map, and its failed count lies
between 1 and its total count. -/
theorem C10_bucket_invariants (docs : List Doc) (k : String) :
    failed_le_total (compute_test_summary docs).by_test.total
        (compute_test_summary docs).by_test.failed k ∧
      failed_le_total (compute_test_summary docs).by_matrix.total
        (compute_test_summary docs).by_matrix.failed k ∧
      failed_le_total (compute_test_summary docs).by_k8s.total
        (compute_test_summary docs).by_k8s.failed k ∧
      failed_le_total (compute_test_summary docs).by_postgres.total
        (compute_test_summary docs).by_postgres.failed k ∧
      failed_le_total (compute_test_summary docs).by_platform.total
        (compute_test_summary docs).by_platform.failed k := by
  unfold compute_test_summary
  refine ⟨?_, ?_, ?_, ?_, ?_⟩
  · have hT : (List.foldl fold_artifact init_summary docs).by_test.total =
        List.foldl (bump_step is_test_artifact fun d => (toRecord d).name)
          [] docs :=
      foldl_hom_summary (fun s => s.by_test.total)
        (bump_step is_test_artifact fun d => (toRecord d).name)
        by_test_total_step docs init_summary
    have hF : (List.foldl fold_artifact init_summary docs).by_test.failed =
        List.foldl (bump_step test_fail_counts fun d => (toRecord d).name)
          [] docs :=
      foldl_hom_summary (fun s => s.by_test.failed)
        (bump_step test_fail_counts fun d => (toRecord d).name)
        by_test_failed_step docs init_summary
    rw [hT, hF]
    exact fold_bump_inv _ _ _
      (fun d hd => by
        simp only [test_fail_counts, Bool.and_eq_true] at hd
        exact hd.1.1) docs k
  · have hT : (List.foldl fold_artifact init_summary docs).by_matrix.total =
        List.foldl (bump_step is_test_artifact fun d => (toRecord d).matrix_id)
          [] docs :=
      foldl_hom_summary (fun s => s.by_matrix.total)
        (bump_step is_test_artifact fun d => (toRecord d).matrix_id)
        by_matrix_total_step docs init_summary
    have hF : (List.foldl fold_artifact init_summary docs).by_matrix.failed =
        List.foldl
          (bump_step (fun d => is_test_artifact d && is_failed (toRecord d))
            fun d => (toRecord d).matrix_id) [] docs :=
      foldl_hom_summary (fun s => s.by_matrix.failed)
        (bump_step (fun d => is_test_artifact d && is_failed (toRecord d))
          fun d => (toRecord d).matrix_id)
        by_matrix_failed_step docs init_summary
    rw [hT, hF]
    exact fold_bump_inv _ _ _
      (fun d hd => by
        simp only [Bool.and_eq_true] at hd
        exact hd.1) docs k
  · have hT : (List.foldl fold_artifact init_summary docs).by_k8s.total =
        List.foldl (bump_step is_test_artifact fun d => (toRecord d).k8s_version)
          [] docs :=
      foldl_hom_summary (fun s => s.by_k8s.total)
        (bump_step is_test_artifact fun d => (toRecord d).k8s_version)
        by_k8s_total_step docs init_summary
    have hF : (List.foldl fold_artifact init_summary docs).by_k8s.failed =
        List.foldl
          (bump_step (fun d => is_test_artifact d && is_failed (toRecord d))
            fun d => (toRecord d).k8s_version) [] docs :=
      foldl_hom_summary (fun s => s.by_k8s.failed)
        (bump_step (fun d => is_test_artifact d && is_failed (toRecord d))
          fun d => (toRecord d).k8s_version)
        by_k8s_failed_step docs init_summary
    rw [hT, hF]
    exact fold_bump_inv _ _ _
      (fun d hd => by
        simp only [Bool.and_eq_true] at hd
        exact hd.1) docs k
  · have hT : (List.foldl fold_artifact init_summary docs).by_postgres.total =
        List.foldl (bump_step is_test_artifact fun d => (toRecord d).pg_version)
          [] docs :=
      foldl_hom_summary (fun s => s.by_postgres.total)
        (bump_step is_test_artifact fun d => (toRecord d).pg_version)
        by_postgres_total_step docs init_summary
    have hF : (List.foldl fold_artifact init_summary docs).by_postgres.failed =
        List.foldl
          (bump_step (fun d => is_test_artifact d && is_failed (toRecord d))
            fun d => (toRecord d).pg_version) [] docs :=
      foldl_hom_summary (fun s => s.by_postgres.failed)
        (bump_step (fun d => is_test_artifact d && is_failed (toRecord d))
          fun d => (toRecord d).pg_version)
        by_postgres_failed_step docs init_summary
    rw [hT, hF]
    exact fold_bump_inv _ _ _
      (fun d hd => by
        simp only [Bool.and_eq_true] at hd
        exact hd.1) docs k
  · have hT : (List.foldl fold_artifact init_summary docs).by_platform.total =
        List.foldl (bump_step is_test_artifact fun d => (toRecord d).platform)
          [] docs :=
      foldl_hom_summary (fun s => s.by_platform.total)
        (bump_step is_test_artifact fun d => (toRecord d).platform)
        by_platform_total_step docs init_summary
    have hF : (List.foldl fold_artifact init_summary docs).by_platform.failed =
        List.foldl
          (bump_step (fun d => is_test_artifact d && is_failed (toRecord d))
            fun d => (toRecord d).platform) [] docs :=
      foldl_hom_summary (fun s => s.by_platform.failed)
        (bump_step (fun d => is_test_artifact d && is_failed (toRecord d))
          fun d => (toRecord d).platform)
        by_platform_failed_step docs init_summary
    rw [hT, hF]
    exact fold_bump_inv _ _ _
      (fun d hd => by
        simp only [Bool.and_eq_true] at hd
        exact hd.1) docs k

/-- C10 witness: the invariant at a concrete directory and bucket key. -/
theorem C10_witness :
    failed_le_total (compute_test_summary [passed_doc, failed_doc]).by_test.total
        (compute_test_summary [passed_doc, failed_doc]).by_test.failed "t fail" ∧
      failed_le_total
        (compute_test_summary [passed_doc, failed_doc]).by_matrix.total
        (compute_test_summary [passed_doc, failed_doc]).by_matrix.failed "t fail" ∧
      failed_le_total
        (compute_test_summary [passed_doc, failed_doc]).by_k8s.total
        (compute_test_summary [passed_doc, failed_doc]).by_k8s.failed "t fail" ∧
      failed_le_total
        (compute_test_summary [passed_doc, failed_doc]).by_postgres.total
        (compute_test_summary [passed_doc, failed_doc]).by_postgres.failed "t fail" ∧
      failed_le_total
        (compute_test_summary [passed_doc, failed_doc]).by_platform.total
        (compute_test_summary [passed_doc, failed_doc]).by_platform.failed "t fail" :=
  C10_bucket_invariants [passed_doc, failed_doc] "t fail"

/-- C1.  Counterexample: `is_special_error` answers true on a passed record
whose error text is in the known-error set, so its truth is not equivalent
to the conjunction "state denotes failure AND error in the known-error set"
stated by the claim. -/
theorem C1_counterexample :
    is_special_error passed_restart_record = true ∧
      is_failed passed_restart_record = false := by
  decide

/-- C1 (amended): `is_special_error` returns true if and only if the
record's error field is one of the fixed known errors; the record's state
is not consulted, so non-failed records qualify as well. -/
theorem C1_special_error_iff (t : Record) :
    is_special_error t = true ↔
      t.error = "operator was restarted" ∨ t.error = "operator was renamed" := by
  simp [is_special_error]

/-- C3.  Counterexample: a record that is an external failure whose error
text also matches the known-error set is filed under its error value, not
under its state value as the claim requires. -/
theorem C3_counterexample :
    is_external_failure interrupted_restart_record = true ∧
      lookup?
        (count_bucketed_by_special_failures interrupted_restart_record
          ⟨[], [], [], [], []⟩).total "interrupted" = none ∧
      lookup?
        (count_bucketed_by_special_failures interrupted_restart_record
          ⟨[], [], [], [], []⟩).total "operator was restarted" = some 1 := by
  decide

/-- C3 (amended): a record folded into the by-special-failure bucket
(failed and not a normal failure) is counted under `special_failure_label`:
the record's error value whenever it is a special error or a report
failure — even if it is also an external failure — and its state value for
the remaining external failures. -/
theorem C3_special_failure_label_spec (t : Record) (m : BySpecial) (q : String)
    (hf : is_failed t = true) (hn : is_normal_failure t = false) :
    lookup? (count_bucketed_by_special_failures t m).total q =
      (if q = special_failure_label t
        then some (getD m.total (special_failure_label t) 0 + 1)
        else lookup? m.total q) ∧
    (is_special_error t = true ∨ is_ginkgo_report_failure t = true →
      special_failure_label t = t.error) ∧
    (is_special_error t = false → is_ginkgo_report_failure t = false →
      special_failure_label t = t.state) := by
  refine ⟨?_, ?_, ?_⟩
  · simp [count_bucketed_by_special_failures, hf, hn, lookup_bump]
  · rintro (hs | hg)
    · simp [special_failure_label, hs]
    · simp [special_failure_label, hg]
  · intro hs hg
    have hext : is_external_failure t = true := by
      simp [is_normal_failure, hf, hs, hg] at hn
      exact hn
    simp [special_failure_label, hs, hg, hext]

/-- C3 witness: the amended theorem applied to a concrete failed,
non-normal record and a concrete bucket state. -/
theorem C3_witness :
    is_failed interrupted_restart_record = true ∧
      is_normal_failure interrupted_restart_record = false ∧
      (lookup?
          (count_bucketed_by_special_failures interrupted_restart_record
            ⟨[("x", 1)], [], [], [], []⟩).total "operator was restarted" =
        (if ("operator was restarted" : String) =
              special_failure_label interrupted_restart_record
          then some
            (getD (⟨[("x", 1)], [], [], [], []⟩ : BySpecial).total
              (special_failure_label interrupted_restart_record) 0 + 1)
          else lookup? (⟨[("x", 1)], [], [], [], []⟩ : BySpecial).total
            "operator was restarted") ∧
        (is_special_error interrupted_restart_record = true ∨
            is_ginkgo_report_failure interrupted_restart_record = true →
          special_failure_label interrupted_restart_record =
            interrupted_restart_record.error) ∧
        (is_special_error interrupted_restart_record = false →
          is_ginkgo_report_failure interrupted_restart_record = false →
          special_failure_label interrupted_restart_record =
            interrupted_restart_record.state)) :=
  ⟨by decide, by decide,
    C3_special_failure_label_spec interrupted_restart_record
      ⟨[("x", 1)], [], [], [], []⟩ "operator was restarted"
      (by decide) (by decide)⟩

/-- C8: when either timestamp is the sentinel zero-value, or either
timestamp does not split on "." into exactly two fragments,
`track_time_taken` returns both duration states unchanged: no per-test
min/max/slowest entry and no per-(platform, matrix) suite entry is created
or modified. -/
theorem C8_track_time_frame (t : Record) (tt : TestTimes) (st : SuiteTimes)
    (h : t.start_time = "0001-01-01T00:00:00Z"
        ∨ t.end_time = "0001-01-01T00:00:00Z"
        ∨ (splitOnChar '.' t.start_time).length ≠ 2
        ∨ (splitOnChar '.' t.end_time).length ≠ 2) :
    track_time_taken t tt st = (tt, st) := by
  have hnone : timedInfo t = none := by
    rcases h with h | h | h | h <;> simp [timedInfo, h]
  simp [track_time_taken, hnone]

/-- C8 witness: a record with a fractionless end timestamp leaves concrete
non-empty duration states untouched. -/
theorem C8_witness :
    (passed_restart_record.start_time = "0001-01-01T00:00:00Z"
        ∨ passed_restart_record.end_time = "0001-01-01T00:00:00Z"
        ∨ (splitOnChar '.' passed_restart_record.start_time).length ≠ 2
        ∨ (splitOnChar '.' passed_restart_record.end_time).length ≠ 2) ∧
      track_time_taken passed_restart_record
          ⟨[("t", 3)], [("t", 3)], [("t", "id1")]⟩
          ⟨[("local", [("id1", 5)])], [("local", [("id1", 9)])]⟩ =
        (⟨[("t", 3)], [("t", 3)], [("t", "id1")]⟩,
          ⟨[("local", [("id1", 5)])], [("local", [("id1", 9)])]⟩) :=
  ⟨by decide,
    C8_track_time_frame passed_restart_record
      ⟨[("t", 3)], [("t", 3)], [("t", "id1")]⟩
      ⟨[("local", [("id1", 5)])], [("local", [("id1", 9)])]⟩ (by decide)⟩

/-- C6: a document missing at least one of the 15 required fields folds to
the identity: aggregating any list with it inserted anywhere gives exactly
the aggregation of the list without it. -/
theorem C6_invalid_artifact_skipped (docs₁ docs₂ : List Doc) (d : Doc)
    (h : ∃ f ∈ should_have, lookup? d f = none) :
    compute_test_summary (docs₁ ++ d :: docs₂) =
      compute_test_summary (docs₁ ++ docs₂) := by
  have hinv : is_test_artifact d = false := by
    obtain ⟨f, hf, hnone⟩ := h
    simp only [is_test_artifact, List.all_eq_false]
    exact ⟨f, hf, by simp [hnone]⟩
  unfold compute_test_summary
  rw [List.foldl_append, List.foldl_append, List.foldl_cons]
  congr 1
  simp [fold_artifact, hinv]

/-- C6 witness: dropping a document that misses the `state` field from a
concrete two-document directory does not change the aggregation. -/
theorem C6_witness :
    (∃ f ∈ should_have, lookup? [(("name" : String), ("ghost" : String))] f = none) ∧
      compute_test_summary [[(("name" : String), ("ghost" : String))]] =
        compute_test_summary [] :=
  ⟨by decide,
    by
      have h := C6_invalid_artifact_skipped [] []
        [(("name" : String), ("ghost" : String))] (by decide)
      simpa using h⟩

/-! Duration-tracking lemmas. -/

theorem maxStep_eq_max (o : Option Int) (x : Int) :
    maxStep o x = some (max (o.getD x) x) := by
  cases o with
  | none => simp [maxStep]
  | some m =>
    simp only [maxStep, Option.getD_some]
    split_ifs with h1
    · simp [max_eq_right (by omega : m ≤ x)]
    · simp [max_eq_left (by omega : x ≤ m)]

theorem minStep_eq_min (o : Option Int) (x : Int) :
    minStep o x = some (min (o.getD x) x) := by
  cases o with
  | none => simp [minStep]
  | some m =>
    simp only [minStep, Option.getD_some]
    split_ifs with h1
    · simp [min_eq_right (by omega : x ≤ m)]
    · simp [min_eq_left (by omega : m ≤ x)]

theorem maxStep_comm (o : Option Int) (x y : Int) :
    maxStep (maxStep o x) y = maxStep (maxStep o y) x := by
  cases o with
  | none =>
    rw [maxStep_eq_max, maxStep_eq_max, maxStep_eq_max, maxStep_eq_max]
    simp [max_self, max_comm x y]
  | some m =>
    rw [maxStep_eq_max, maxStep_eq_max, maxStep_eq_max, maxStep_eq_max]
    simp [max_assoc, max_comm x y]

theorem minStep_comm (o : Option Int) (x y : Int) :
    minStep (minStep o x) y = minStep (minStep o y) x := by
  cases o with
  | none =>
    rw [minStep_eq_min, minStep_eq_min, minStep_eq_min, minStep_eq_min]
    simp [min_self, min_comm x y]
  | some m =>
    rw [minStep_eq_min, minStep_eq_min, minStep_eq_min, minStep_eq_min]
    simp [min_assoc, min_comm x y]

theorem track_max_map (t : Record) (tt : TestTimes) (st : SuiteTimes)
    (a b : Int) (h : timedInfo t = some (a, b)) :
    (track_time_taken t tt st).1.max =
      (match lookup? tt.max (tagged_name t) with
        | none => setVal tt.max (tagged_name t) (b - a)
        | some m =>
          if b - a > m then setVal tt.max (tagged_name t) (b - a)
          else tt.max) := by
  simp only [track_time_taken, h]
  cases hL : lookup? tt.max (tagged_name t) with
  | none => simp [hL, getD, lookup_setVal]
  | some m => simp [hL, getD]

theorem track_max_lookup (t : Record) (tt : TestTimes) (st : SuiteTimes)
    (a b : Int) (h : timedInfo t = some (a, b)) (q : String) :
    lookup? (track_time_taken t tt st).1.max q =
      (if q = tagged_name t then maxStep (lookup? tt.max (tagged_name t)) (b - a)
        else lookup? tt.max q) := by
  rw [track_max_map t tt st a b h]
  cases hL : lookup? tt.max (tagged_name t) with
  | none =>
    simp only [maxStep]
    rw [lookup_setVal]
  | some m =>
    simp only [maxStep]
    by_cases h1 : b - a > m
    · simp only [if_pos h1]
      rw [lookup_setVal]
    · simp only [if_neg h1]
      by_cases hq : q = tagged_name t
      · rw [if_pos hq, hq, hL]
      · rw [if_neg hq]

theorem track_min_map (t : Record) (tt : TestTimes) (st : SuiteTimes)
    (a b : Int) (h : timedInfo t = some (a, b)) :
    (track_time_taken t tt st).1.min =
      (match lookup? tt.min (tagged_name t) with
        | none => setVal tt.min (tagged_name t) (b - a)
        | some m =>
          if b - a < m then setVal tt.min (tagged_name t) (b - a)
          else tt.min) := by
  simp only [track_time_taken, h]
  cases hL : lookup? tt.min (tagged_name t) with
  | none => simp [hL, getD, lookup_setVal]
  | some m => simp [hL, getD]

theorem track_min_lookup (t : Record) (tt : TestTimes) (st : SuiteTimes)
    (a b : Int) (h : timedInfo t = some (a, b)) (q : String) :
    lookup? (track_time_taken t tt st).1.min q =
      (if q = tagged_name t then minStep (lookup? tt.min (tagged_name t)) (b - a)
        else lookup? tt.min q) := by
  rw [track_min_map t tt st a b h]
  cases hL : lookup? tt.min (tagged_name t) with
  | none =>
    simp only [minStep]
    rw [lookup_setVal]
  | some m =>
    simp only [minStep]
    by_cases h1 : b - a < m
    · simp only [if_pos h1]
      rw [lookup_setVal]
    · simp only [if_neg h1]
      by_cases hq : q = tagged_name t
      · rw [if_pos hq, hq, hL]
      · rw [if_neg hq]

theorem track_slow_isSome (t : Record) (tt : TestTimes) (st : SuiteTimes)
    (a b : Int) (h : timedInfo t = some (a, b)) (q : String) :
    (lookup? (track_time_taken t tt st).1.slowest_branch q).isSome =
      ((q == tagged_name t) || (lookup? tt.slowest_branch q).isSome) := by
  simp only [track_time_taken, h]
  by_cases hq : q = tagged_name t
  · have hq' : (q == tagged_name t) = true := by simpa using hq
    rw [hq]
    cases hS : lookup? tt.slowest_branch (tagged_name t) <;>
      split_ifs <;> simp_all [lookup_setVal]
  · have hq' : (q == tagged_name t) = false := by simpa using hq
    split_ifs <;> simp_all [lookup_setVal, hq]

theorem lookup2_setVal (mm : StrMap (StrMap Int)) (pf : String)
    (inner : StrMap Int) (p mx : String) :
    lookup2 (setVal mm pf inner) p mx =
      (if p = pf then lookup? inner mx else lookup2 mm p mx) := by
  unfold lookup2 getD
  rw [lookup_setVal]
  by_cases hp : p = pf <;> simp [hp]

theorem track_suite_start_lookup (t : Record) (tt : TestTimes) (st : SuiteTimes)
    (a b : Int) (h : timedInfo t = some (a, b)) (p mx : String) :
    lookup2 (track_time_taken t tt st).2.start_time p mx =
      (if p = t.platform ∧ mx = t.matrix_id then
          minStep (lookup2 st.start_time t.platform t.matrix_id) a
        else lookup2 st.start_time p mx) := by
  simp only [track_time_taken, h]
  cases hC : lookup2 st.start_time t.platform t.matrix_id with
  | none =>
    have hC' : lookup? (getD st.start_time t.platform []) t.matrix_id = none := hC
    simp only [minStep, hC', Option.isNone_none, if_true]
    split_ifs with c1 c2 c3 <;>
      (try simp_all [lookup2_setVal, lookup2, getD, lookup_setVal, lookup?]) <;>
      (by_cases hp : p = t.platform <;> simp_all [lookup_setVal])
  | some c =>
    have hC' : lookup? (getD st.start_time t.platform []) t.matrix_id = some c := hC
    simp only [minStep, hC']
    split_ifs with c1 c2 c3 <;>
      (try simp_all [lookup2_setVal, lookup2, getD, lookup_setVal, lookup?]) <;>
      (by_cases hp : p = t.platform <;> simp_all [lookup_setVal])

theorem track_suite_end_lookup (t : Record) (tt : TestTimes) (st : SuiteTimes)
    (a b : Int) (h : timedInfo t = some (a, b)) (p mx : String) :
    lookup2 (track_time_taken t tt st).2.end_time p mx =
      (if p = t.platform ∧ mx = t.matrix_id then
          maxStep (lookup2 st.end_time t.platform t.matrix_id) b
        else lookup2 st.end_time p mx) := by
  simp only [track_time_taken, h]
  cases hC : lookup2 st.end_time t.platform t.matrix_id with
  | none =>
    have hC' : lookup? (getD st.end_time t.platform []) t.matrix_id = none := hC
    simp only [maxStep, hC', Option.isNone_none, if_true]
    split_ifs with c1 c2 c3 <;>
      (try simp_all [lookup2_setVal, lookup2, getD, lookup_setVal, lookup?]) <;>
      (by_cases hp : p = t.platform <;> simp_all [lookup_setVal])
  | some c =>
    have hC' : lookup? (getD st.end_time t.platform []) t.matrix_id = some c := hC
    simp only [maxStep, hC']
    split_ifs with c1 c2 c3 <;>
      (try simp_all [lookup2_setVal, lookup2, getD, lookup_setVal, lookup?]) <;>
      (by_cases hp : p = t.platform <;> simp_all [lookup_setVal])

theorem dur_max_step (s : Summary) (d : Doc) (n : String) :
    lookup? (fold_artifact s d).test_durations.max n =
      maxFold n (lookup? s.test_durations.max n) d := by
  by_cases hv : is_test_artifact d
  · simp only [fold_artifact, if_pos hv]
    unfold maxFold durOf
    rw [if_pos hv]
    cases hT : timedInfo (toRecord d) with
    | none => simp [track_time_taken, hT]
    | some se =>
      obtain ⟨a, b⟩ := se
      rw [track_max_lookup (toRecord d) _ _ a b hT n]
      by_cases hn : tagged_name (toRecord d) = n
      · simp [hn]
      · have hn' : ¬ n = tagged_name (toRecord d) := fun hh => hn hh.symm
        simp [hn, hn']
  · simp [fold_artifact, maxFold, durOf, hv]

theorem dur_min_step (s : Summary) (d : Doc) (n : String) :
    lookup? (fold_artifact s d).test_durations.min n =
      minFold n (lookup? s.test_durations.min n) d := by
  by_cases hv : is_test_artifact d
  · simp only [fold_artifact, if_pos hv]
    unfold minFold durOf
    rw [if_pos hv]
    cases hT : timedInfo (toRecord d) with
    | none => simp [track_time_taken, hT]
    | some se =>
      obtain ⟨a, b⟩ := se
      rw [track_min_lookup (toRecord d) _ _ a b hT n]
      by_cases hn : tagged_name (toRecord d) = n
      · simp [hn]
      · have hn' : ¬ n = tagged_name (toRecord d) := fun hh => hn hh.symm
        simp [hn, hn']
  · simp [fold_artifact, minFold, durOf, hv]

theorem dur_slow_step (s : Summary) (d : Doc) (n : String) :
    (lookup? (fold_artifact s d).test_durations.slowest_branch n).isSome =
      slowFold n (lookup? s.test_durations.slowest_branch n).isSome d := by
  by_cases hv : is_test_artifact d
  · simp only [fold_artifact, if_pos hv]
    unfold slowFold durOf
    rw [if_pos hv]
    cases hT : timedInfo (toRecord d) with
    | none => simp [track_time_taken, hT]
    | some se =>
      obtain ⟨a, b⟩ := se
      rw [track_slow_isSome (toRecord d) _ _ a b hT n]
      by_cases hn : tagged_name (toRecord d) = n
      · have hn' : (n == tagged_name (toRecord d)) = true := by
          simpa using hn.symm
        simp [hn, hn']
      · have hn' : (n == tagged_name (toRecord d)) = false := by
          simpa using fun hh => hn (hh.symm : tagged_name (toRecord d) = n)
        simp [hn, hn']
  · simp [fold_artifact, slowFold, durOf, hv]

theorem dur_start_step (s : Summary) (d : Doc) (p mx : String) :
    lookup2 (fold_artifact s d).suite_durations.start_time p mx =
      startFold p mx (lookup2 s.suite_durations.start_time p mx) d := by
  by_cases hv : is_test_artifact d
  · simp only [fold_artifact, if_pos hv]
    unfold startFold startOf
    rw [if_pos hv]
    cases hT : timedInfo (toRecord d) with
    | none => simp [track_time_taken, hT]
    | some se =>
      obtain ⟨a, b⟩ := se
      rw [track_suite_start_lookup (toRecord d) _ _ a b hT p mx]
      by_cases hpm : (toRecord d).platform = p ∧ (toRecord d).matrix_id = mx
      · simp [hpm, hpm.1, hpm.2]
      · have hpm' : ¬ (p = (toRecord d).platform ∧ mx = (toRecord d).matrix_id) :=
          fun hh => hpm ⟨hh.1.symm, hh.2.symm⟩
        simp [hpm, hpm']
  · simp [fold_artifact, startFold, startOf, hv]

theorem dur_end_step (s : Summary) (d : Doc) (p mx : String) :
    lookup2 (fold_artifact s d).suite_durations.end_time p mx =
      endFold p mx (lookup2 s.suite_durations.end_time p mx) d := by
  by_cases hv : is_test_artifact d
  · simp only [fold_artifact, if_pos hv]
    unfold endFold endOf
    rw [if_pos hv]
    cases hT : timedInfo (toRecord d) with
    | none => simp [track_time_taken, hT]
    | some se =>
      obtain ⟨a, b⟩ := se
      rw [track_suite_end_lookup (toRecord d) _ _ a b hT p mx]
      by_cases hpm : (toRecord d).platform = p ∧ (toRecord d).matrix_id = mx
      · simp [hpm, hpm.1, hpm.2]
      · have hpm' : ¬ (p = (toRecord d).platform ∧ mx = (toRecord d).matrix_id) :=
          fun hh => hpm ⟨hh.1.symm, hh.2.symm⟩
        simp [hpm, hpm']
  · simp [fold_artifact, endFold, endOf, hv]

theorem test_max_fold_char (docs : List Doc) (n : String) :
    lookup? (compute_test_summary docs).test_durations.max n =
      List.foldl (maxFold n) none docs := by
  unfold compute_test_summary
  have h : lookup? (List.foldl fold_artifact init_summary docs).test_durations.max n =
      List.foldl (maxFold n) (lookup? init_summary.test_durations.max n) docs :=
    foldl_hom_summary (fun s => lookup? s.test_durations.max n) (maxFold n)
      (fun s d => dur_max_step s d n) docs init_summary
  rw [h]
  rfl

theorem test_min_fold_char (docs : List Doc) (n : String) :
    lookup? (compute_test_summary docs).test_durations.min n =
      List.foldl (minFold n) none docs := by
  unfold compute_test_summary
  have h : lookup? (List.foldl fold_artifact init_summary docs).test_durations.min n =
      List.foldl (minFold n) (lookup? init_summary.test_durations.min n) docs :=
    foldl_hom_summary (fun s => lookup? s.test_durations.min n) (minFold n)
      (fun s d => dur_min_step s d n) docs init_summary
  rw [h]
  rfl

theorem test_slow_fold_char (docs : List Doc) (n : String) :
    (lookup? (compute_test_summary docs).test_durations.slowest_branch n).isSome =
      List.foldl (slowFold n) false docs := by
  unfold compute_test_summary
  have h : (lookup?
        (List.foldl fold_artifact init_summary docs).test_durations.slowest_branch
        n).isSome =
      List.foldl (slowFold n)
        (lookup? init_summary.test_durations.slowest_branch n).isSome docs :=
    foldl_hom_summary
      (fun s => (lookup? s.test_durations.slowest_branch n).isSome) (slowFold n)
      (fun s d => dur_slow_step s d n) docs init_summary
  rw [h]
  rfl

theorem suite_start_fold_char (docs : List Doc) (p mx : String) :
    lookup2 (compute_test_summary docs).suite_durations.start_time p mx =
      List.foldl (startFold p mx) none docs := by
  unfold compute_test_summary
  have h : lookup2
        (List.foldl fold_artifact init_summary docs).suite_durations.start_time
        p mx =
      List.foldl (startFold p mx)
        (lookup2 init_summary.suite_durations.start_time p mx) docs :=
    foldl_hom_summary (fun s => lookup2 s.suite_durations.start_time p mx)
      (startFold p mx) (fun s d => dur_start_step s d p mx) docs init_summary
  rw [h]
  rfl

theorem suite_end_fold_char (docs : List Doc) (p mx : String) :
    lookup2 (compute_test_summary docs).suite_durations.end_time p mx =
      List.foldl (endFold p mx) none docs := by
  unfold compute_test_summary
  have h : lookup2
        (List.foldl fold_artifact init_summary docs).suite_durations.end_time
        p mx =
      List.foldl (endFold p mx)
        (lookup2 init_summary.suite_durations.end_time p mx) docs :=
    foldl_hom_summary (fun s => lookup2 s.suite_durations.end_time p mx)
      (endFold p mx) (fun s d => dur_end_step s d p mx) docs init_summary
  rw [h]
  rfl

theorem by_matrix_total_fold (docs : List Doc) (k : String) :
    getD (compute_test_summary docs).by_matrix.total k 0 =
      docs.countP fun d => is_test_artifact d && ((toRecord d).matrix_id == k) := by
  unfold compute_test_summary
  have h : (List.foldl fold_artifact init_summary docs).by_matrix.total =
      List.foldl (bump_step is_test_artifact fun d => (toRecord d).matrix_id)
        [] docs :=
    foldl_hom_summary (fun s => s.by_matrix.total)
      (bump_step is_test_artifact fun d => (toRecord d).matrix_id)
      by_matrix_total_step docs init_summary
  rw [h, fold_bump_getD]
  simp [getD, lookup?]

theorem by_matrix_failed_fold (docs : List Doc) (k : String) :
    getD (compute_test_summary docs).by_matrix.failed k 0 =
      docs.countP fun d =>
        (is_test_artifact d && is_failed (toRecord d)) &&
          ((toRecord d).matrix_id == k) := by
  unfold compute_test_summary
  have h : (List.foldl fold_artifact init_summary docs).by_matrix.failed =
      List.foldl
        (bump_step (fun d => is_test_artifact d && is_failed (toRecord d))
          fun d => (toRecord d).matrix_id) [] docs :=
    foldl_hom_summary (fun s => s.by_matrix.failed)
      (bump_step (fun d => is_test_artifact d && is_failed (toRecord d))
        fun d => (toRecord d).matrix_id)
      by_matrix_failed_step docs init_summary
  rw [h, fold_bump_getD]
  simp [getD, lookup?]

theorem by_k8s_total_fold (docs : List Doc) (k : String) :
    getD (compute_test_summary docs).by_k8s.total k 0 =
      docs.countP fun d => is_test_artifact d && ((toRecord d).k8s_version == k) := by
  unfold compute_test_summary
  have h : (List.foldl fold_artifact init_summary docs).by_k8s.total =
      List.foldl (bump_step is_test_artifact fun d => (toRecord d).k8s_version)
        [] docs :=
    foldl_hom_summary (fun s => s.by_k8s.total)
      (bump_step is_test_artifact fun d => (toRecord d).k8s_version)
      by_k8s_total_step docs init_summary
  rw [h, fold_bump_getD]
  simp [getD, lookup?]

theorem by_k8s_failed_fold (docs : List Doc) (k : String) :
    getD (compute_test_summary docs).by_k8s.failed k 0 =
      docs.countP fun d =>
        (is_test_artifact d && is_failed (toRecord d)) &&
          ((toRecord d).k8s_version == k) := by
  unfold compute_test_summary
  have h : (List.foldl fold_artifact init_summary docs).by_k8s.failed =
      List.foldl
        (bump_step (fun d => is_test_artifact d && is_failed (toRecord d))
          fun d => (toRecord d).k8s_version) [] docs :=
    foldl_hom_summary (fun s => s.by_k8s.failed)
      (bump_step (fun d => is_test_artifact d && is_failed (toRecord d))
        fun d => (toRecord d).k8s_version)
      by_k8s_failed_step docs init_summary
  rw [h, fold_bump_getD]
  simp [getD, lookup?]

theorem by_postgres_total_fold (docs : List Doc) (k : String) :
    getD (compute_test_summary docs).by_postgres.total k 0 =
      docs.countP fun d => is_test_artifact d && ((toRecord d).pg_version == k) := by
  unfold compute_test_summary
  have h : (List.foldl fold_artifact init_summary docs).by_postgres.total =
      List.foldl (bump_step is_test_artifact fun d => (toRecord d).pg_version)
        [] docs :=
    foldl_hom_summary (fun s => s.by_postgres.total)
      (bump_step is_test_artifact fun d => (toRecord d).pg_version)
      by_postgres_total_step docs init_summary
  rw [h, fold_bump_getD]
  simp [getD, lookup?]

theorem by_postgres_failed_fold (docs : List Doc) (k : String) :
    getD (compute_test_summary docs).by_postgres.failed k 0 =
      docs.countP fun d =>
        (is_test_artifact d && is_failed (toRecord d)) &&
          ((toRecord d).pg_version == k) := by
  unfold compute_test_summary
  have h : (List.foldl fold_artifact init_summary docs).by_postgres.failed =
      List.foldl
        (bump_step (fun d => is_test_artifact d && is_failed (toRecord d))
          fun d => (toRecord d).pg_version) [] docs :=
    foldl_hom_summary (fun s => s.by_postgres.failed)
      (bump_step (fun d => is_test_artifact d && is_failed (toRecord d))
        fun d => (toRecord d).pg_version)
      by_postgres_failed_step docs init_summary
  rw [h, fold_bump_getD]
  simp [getD, lookup?]

theorem by_platform_total_fold (docs : List Doc) (k : String) :
    getD (compute_test_summary docs).by_platform.total k 0 =
      docs.countP fun d => is_test_artifact d && ((toRecord d).platform == k) := by
  unfold compute_test_summary
  have h : (List.foldl fold_artifact init_summary docs).by_platform.total =
      List.foldl (bump_step is_test_artifact fun d => (toRecord d).platform)
        [] docs :=
    foldl_hom_summary (fun s => s.by_platform.total)
      (bump_step is_test_artifact fun d => (toRecord d).platform)
      by_platform_total_step docs init_summary
  rw [h, fold_bump_getD]
  simp [getD, lookup?]

theorem by_platform_failed_fold (docs : List Doc) (k : String) :
    getD (compute_test_summary docs).by_platform.failed k 0 =
      docs.countP fun d =>
        (is_test_artifact d && is_failed (toRecord d)) &&
          ((toRecord d).platform == k) := by
  unfold compute_test_summary
  have h : (List.foldl fold_artifact init_summary docs).by_platform.failed =
      List.foldl
        (bump_step (fun d => is_test_artifact d && is_failed (toRecord d))
          fun d => (toRecord d).platform) [] docs :=
    foldl_hom_summary (fun s => s.by_platform.failed)
      (bump_step (fun d => is_test_artifact d && is_failed (toRecord d))
        fun d => (toRecord d).platform)
      by_platform_failed_step docs init_summary
  rw [h, fold_bump_getD]
  simp [getD, lookup?]

/-! Permutation-invariance helpers. -/

theorem exists_mem_perm {α : Type} {l₁ l₂ : List α} (h : l₁.Perm l₂)
    (P : α → Prop) : (∃ d ∈ l₁, P d) ↔ ∃ d ∈ l₂, P d := by
  constructor <;> rintro ⟨d, hd, hpd⟩
  · exact ⟨d, h.mem_iff.mp hd, hpd⟩
  · exact ⟨d, h.mem_iff.mpr hd, hpd⟩

theorem any_perm {α : Type} {l₁ l₂ : List α} (h : l₁.Perm l₂) (q : α → Bool) :
    l₁.any q = l₂.any q := by
  rw [Bool.eq_iff_iff, List.any_eq_true, List.any_eq_true]
  exact exists_mem_perm h _

theorem maxFold_comm (n : String) (o : Option Int) (d₁ d₂ : Doc) :
    maxFold n (maxFold n o d₁) d₂ = maxFold n (maxFold n o d₂) d₁ := by
  unfold maxFold
  cases durOf n d₁ <;> cases durOf n d₂ <;> simp [maxStep_comm]

theorem minFold_comm (n : String) (o : Option Int) (d₁ d₂ : Doc) :
    minFold n (minFold n o d₁) d₂ = minFold n (minFold n o d₂) d₁ := by
  unfold minFold
  cases durOf n d₁ <;> cases durOf n d₂ <;> simp [minStep_comm]

theorem slowFold_comm (n : String) (bo : Bool) (d₁ d₂ : Doc) :
    slowFold n (slowFold n bo d₁) d₂ = slowFold n (slowFold n bo d₂) d₁ := by
  simp [slowFold, Bool.or_assoc, Bool.or_comm, Bool.or_left_comm]

theorem startFold_comm (p mx : String) (o : Option Int) (d₁ d₂ : Doc) :
    startFold p mx (startFold p mx o d₁) d₂ =
      startFold p mx (startFold p mx o d₂) d₁ := by
  unfold startFold
  cases startOf p mx d₁ <;> cases startOf p mx d₂ <;> simp [minStep_comm]

theorem endFold_comm (p mx : String) (o : Option Int) (d₁ d₂ : Doc) :
    endFold p mx (endFold p mx o d₁) d₂ =
      endFold p mx (endFold p mx o d₂) d₁ := by
  unfold endFold
  cases endOf p mx d₁ <;> cases endOf p mx d₂ <;> simp [maxStep_comm]

/-- C9.  Counterexample: two passed runs of the same test with equal
60-second durations on matrix branches id1 and id2.  Swapping their order
changes the stored slowest-branch pointer — a field other than the by-code
error text, the claim's sole permitted exception — while the by-code error
map (empty here) is unchanged. -/
theorem C9_counterexample :
    List.Perm [tie_doc_one, tie_doc_two] [tie_doc_two, tie_doc_one] ∧
      (compute_test_summary [tie_doc_one, tie_doc_two]).by_code.errors =
        (compute_test_summary [tie_doc_two, tie_doc_one]).by_code.errors ∧
      lookup? (compute_test_summary
            [tie_doc_one, tie_doc_two]).test_durations.slowest_branch "t tie" ≠
        lookup? (compute_test_summary
            [tie_doc_two, tie_doc_one]).test_durations.slowest_branch "t tie" :=
  ⟨List.Perm.swap tie_doc_two tie_doc_one [], by decide, by decide⟩

/-- C9 (amended): for every two orderings of the same multiset of
documents, the aggregations agree on every scalar total, every per-bucket
total/failed count, every breakdown-set membership, the by-code error-text
key set, and every duration extremum; the two permitted exceptions, both
first-occurrence-wins, are the stored by-code error text and the per-test
slowest-branch pointer value (whose key set is still order-insensitive). -/
theorem C9_order_insensitive_except_first_wins (docs₁ docs₂ : List Doc)
    (hp : docs₁.Perm docs₂) (n k w p mx : String) :
    agree_except_order (compute_test_summary docs₁) (compute_test_summary docs₂)
      n k w p mx := by
  unfold agree_except_order
  refine ⟨?_, ?_, ?_, ?_, ?_, ?_, ?_, ?_, ?_, ?_, ?_, ?_, ?_, ?_, ?_, ?_, ?_,
    ?_, ?_, ?_, ?_, ?_, ?_, ?_, ?_, ?_, ?_, ?_, ?_⟩
  · have h1 := total_run_char docs₁ init_summary
    have h2 := total_run_char docs₂ init_summary
    unfold compute_test_summary
    rw [h1, h2, hp.countP_eq]
  · have h1 := total_failed_char docs₁ init_summary
    have h2 := total_failed_char docs₂ init_summary
    unfold compute_test_summary
    rw [h1, h2, hp.countP_eq]
  · have h1 := total_special_char docs₁ init_summary
    have h2 := total_special_char docs₂ init_summary
    unfold compute_test_summary
    rw [h1, h2, hp.countP_eq]
  · rw [by_test_total_fold, by_test_total_fold, hp.countP_eq]
  · rw [by_test_failed_fold, by_test_failed_fold, hp.countP_eq]
  · rw [by_test_k8s_mem, by_test_k8s_mem]
    exact exists_mem_perm hp _
  · rw [by_test_pg_mem, by_test_pg_mem]
    exact exists_mem_perm hp _
  · rw [by_test_platform_mem, by_test_platform_mem]
    exact exists_mem_perm hp _
  · rw [by_code_total_fold, by_code_total_fold, hp.countP_eq]
  · rw [by_code_tests_mem, by_code_tests_mem]
    exact exists_mem_perm hp _
  · rw [by_code_errors_isSome, by_code_errors_isSome]
    exact any_perm hp _
  · rw [by_special_total_fold, by_special_total_fold, hp.countP_eq]
  · rw [by_special_tests_mem, by_special_tests_mem]
    exact exists_mem_perm hp _
  · rw [by_special_k8s_mem, by_special_k8s_mem]
    exact exists_mem_perm hp _
  · rw [by_special_pg_mem, by_special_pg_mem]
    exact exists_mem_perm hp _
  · rw [by_special_platform_mem, by_special_platform_mem]
    exact exists_mem_perm hp _
  · rw [by_matrix_total_fold, by_matrix_total_fold, hp.countP_eq]
  · rw [by_matrix_failed_fold, by_matrix_failed_fold, hp.countP_eq]
  · rw [by_k8s_total_fold, by_k8s_total_fold, hp.countP_eq]
  · rw [by_k8s_failed_fold, by_k8s_failed_fold, hp.countP_eq]
  · rw [by_postgres_total_fold, by_postgres_total_fold, hp.countP_eq]
  · rw [by_postgres_failed_fold, by_postgres_failed_fold, hp.countP_eq]
  · rw [by_platform_total_fold, by_platform_total_fold, hp.countP_eq]
  · rw [by_platform_failed_fold, by_platform_failed_fold, hp.countP_eq]
  · rw [test_max_fold_char, test_max_fold_char]
    exact hp.foldl_eq' (fun x _ y _ z => maxFold_comm n z x y) none
  · rw [test_min_fold_char, test_min_fold_char]
    exact hp.foldl_eq' (fun x _ y _ z => minFold_comm n z x y) none
  · rw [test_slow_fold_char, test_slow_fold_char]
    exact hp.foldl_eq' (fun x _ y _ z => slowFold_comm n z x y) false
  · rw [suite_start_fold_char, suite_start_fold_char]
    exact hp.foldl_eq' (fun x _ y _ z => startFold_comm p mx z x y) none
  · rw [suite_end_fold_char, suite_end_fold_char]
    exact hp.foldl_eq' (fun x _ y _ z => endFold_comm p mx z x y) none

/-- C9 witness: the amended theorem applied to a concrete two-artifact
directory and its swap, sampled at concrete keys. -/
theorem C9_witness :
    List.Perm [passed_doc, failed_doc] [failed_doc, passed_doc] ∧
      agree_except_order (compute_test_summary [passed_doc, failed_doc])
        (compute_test_summary [failed_doc, passed_doc])
        "t fail" "1.22" "local" "local" "id1" :=
  ⟨List.Perm.swap failed_doc passed_doc [],
    C9_order_insensitive_except_first_wins _ _
      (List.Perm.swap failed_doc passed_doc []) "t fail" "1.22" "local" "local"
      "id1"⟩

end Ciclops
